import Mathlib

/-!
# Robot arm simulator: shallow embedding and verification

This file embeds the core of `app.js` (robot arm simulator) in Lean 4 and
proves/refutes the frozen behavioural claims about it.

Conventions of the embedding:

* JavaScript numbers are modelled as real numbers `ℝ` (the idealised
  semantics of the float program; all the source's arithmetic is carried
  over literally).
* Angles are radians internally, degrees at the API boundary, exactly as in
  the source.
* Scene-graph geometry that lives in the (out of scope) Three.js layer —
  world bounding boxes of arm meshes, the gripper's world transform, the
  random jitter source — is passed to the embedded functions as explicit
  parameters, so every theorem quantifies over all possible geometry unless
  it instantiates it concretely.
-/

namespace RobotArm

open Real

noncomputable section

/-! ## CONFIG (app.js, `CONFIG`) -/

/-- `CONFIG.segments.baseHeight` -/
def baseHeight : ℝ := 0.4

/-- `CONFIG.segments.shoulderLength` -/
def shoulderLength : ℝ := 1.5

/-- `CONFIG.segments.elbowLength` -/
def elbowLength : ℝ := 1.5

/-- `CONFIG.segments.wristLength` -/
def wristLength : ℝ := 0.4

/-- `CONFIG.segments.gripperLength` -/
def gripperLength : ℝ := 0.25

/-- A `{min, max}` joint-limit record (degrees), as in `CONFIG.limits`. -/
structure Limits where
  min : ℝ
  max : ℝ

/-- `CONFIG.limits.base` -/
def baseLimits : Limits := ⟨-180, 180⟩

/-- `CONFIG.limits.shoulder` -/
def shoulderLimits : Limits := ⟨-90, 90⟩

/-- `CONFIG.limits.elbow` -/
def elbowLimits : Limits := ⟨-135, 135⟩

/-- `CONFIG.limits.wrist` -/
def wristLimits : Limits := ⟨-90, 90⟩

/-- `CONFIG.limits.wristRotate` -/
def wristRotateLimits : Limits := ⟨-180, 180⟩

/-- Degrees to radians, the `* Math.PI / 180` conversion used throughout. -/
def degToRad (d : ℝ) : ℝ := d * π / 180

/-! ## Joint state -/

/-- The five joint angles (radians): the global `jointAngles` /
`targetAngles` records of app.js. -/
structure JointAngles where
  base : ℝ
  shoulder : ℝ
  elbow : ℝ
  wrist : ℝ
  wristRotate : ℝ

/-- `clampAngle(angle, limits)` (app.js:2127). -/
def clampAngle (angle : ℝ) (limits : Limits) : ℝ :=
  max limits.min (min limits.max angle)

/-! ## Motion-executor state

The loose globals of app.js (`jointAngles`, `targetAngles`, `isAnimating`,
`animationStartAngles`, `lastSafeAngles`, `lastSafeProgress`,
`animationQueue`, `runningProgram`) gathered into one record.
`animationStartTime` is a wall-clock side channel: the embedded
`updateAnimation` takes the elapsed time as a parameter instead. -/
structure ArmState where
  jointAngles : JointAngles
  targetAngles : JointAngles
  isAnimating : Bool
  animationStartAngles : JointAngles
  lastSafeAngles : JointAngles
  lastSafeProgress : ℝ
  animationQueue : List String
  runningProgram : Option String

/-- `startAnimation()` (app.js:2341): captures start/last-safe angles and
raises the animating flag, only when nothing is animating yet. -/
def startAnimation (st : ArmState) : ArmState :=
  if st.isAnimating then st
  else
    { st with
      animationStartAngles := st.jointAngles
      lastSafeAngles := st.jointAngles
      lastSafeProgress := 0
      isAnimating := true }

/-- `setJointAngles(base, shoulder, elbow, wrist, animated)` (app.js:2105).
Clamps each degree argument to its static limit, converts to radians, and
stores the result as the animation target (animated) or as the current
angles (instant). `applyJointAngles` only syncs the scene graph and UI, so
it has no counterpart in the state model. -/
def setJointAngles (st : ArmState) (base shoulder elbow wrist : ℝ)
    (animated : Bool) : ArmState :=
  let baseRad := degToRad (clampAngle base baseLimits)
  let shoulderRad := degToRad (clampAngle shoulder shoulderLimits)
  let elbowRad := degToRad (clampAngle elbow elbowLimits)
  let wristRad := degToRad (clampAngle wrist wristLimits)
  if animated then
    startAnimation
      { st with
        targetAngles :=
          { st.targetAngles with
            base := baseRad, shoulder := shoulderRad
            elbow := elbowRad, wrist := wristRad } }
  else
    { st with
      jointAngles :=
        { st.jointAngles with
          base := baseRad, shoulder := shoulderRad
          elbow := elbowRad, wrist := wristRad } }

/-! ## Interpolation (app.js:2533–2547, `easingFunctions`) -/

/-- `lerp(a, b, t)` (app.js:2533). -/
def lerp (a b t : ℝ) : ℝ := a + (b - a) * t

/-- Closed form of the source's angle-normalisation idiom
`while (x > π) x -= 2π; while (x < -π) x += 2π`
(app.js:2225–2226, 2540–2545): the first loop runs
`⌈(x - π)/(2π)⌉` times, the second `⌈(-π - x)/(2π)⌉` times. -/
def wrapToPi (a : ℝ) : ℝ :=
  if a > π then a - 2 * π * (⌈(a - π) / (2 * π)⌉ : ℤ)
  else if a < -π then a + 2 * π * (⌈(-π - a) / (2 * π)⌉ : ℤ)
  else a

/-- `lerpAngle(a, b, t)` (app.js:2538): shortest-path interpolation; the
difference is wrapped into `[-π, π]` before scaling, the result is wrapped
again. -/
def lerpAngle (a b t : ℝ) : ℝ :=
  let diff := wrapToPi (b - a)
  wrapToPi (a + diff * t)

/-- `easingFunctions.easeInOutCubic` (app.js:139), the configured default
easing (`CONFIG.animation.easing`). -/
def easeInOutCubic (t : ℝ) : ℝ :=
  if t < 0.5 then 4 * t * t * t
  else (t - 1) * (2 * t - 2) * (2 * t - 2) + 1

/-- `getAnglesAtProgress(progress)` (app.js:2354): eases the progress, then
interpolates base and wrist roll by `lerpAngle` and the in-plane joints by
`lerp`. -/
def getAnglesAtProgress (start target : JointAngles) (progress : ℝ) :
    JointAngles :=
  let easedProgress := easeInOutCubic progress
  { base := lerpAngle start.base target.base easedProgress
    shoulder := lerp start.shoulder target.shoulder easedProgress
    elbow := lerp start.elbow target.elbow easedProgress
    wrist := lerp start.wrist target.wrist easedProgress
    wristRotate := lerpAngle start.wristRotate target.wristRotate easedProgress }

end

/-! ## Basic lemmas about clamping and wrapping -/

section WrapLemmas

open Real

lemma clampAngle_mem {l : Limits} (h : l.min ≤ l.max) (a : ℝ) :
    l.min ≤ clampAngle a l ∧ clampAngle a l ≤ l.max := by
  constructor
  · exact le_max_left _ _
  · exact max_le h (min_le_left _ _)

lemma wrapToPi_of_mem {a : ℝ} (h1 : -π ≤ a) (h2 : a ≤ π) : wrapToPi a = a := by
  unfold wrapToPi
  rw [if_neg (by linarith), if_neg (by linarith)]

lemma wrapToPi_of_gt {a : ℝ} (h1 : π < a) (h2 : a ≤ 3 * π) :
    wrapToPi a = a - 2 * π := by
  have hπ : (0:ℝ) < π := pi_pos
  have hceil : (⌈(a - π) / (2 * π)⌉ : ℤ) = 1 := by
    rw [Int.ceil_eq_iff]
    constructor
    · push_cast
      have : (0:ℝ) < (a - π) / (2 * π) := div_pos (by linarith) (by positivity)
      linarith
    · push_cast
      rw [div_le_one (by positivity)]
      linarith
  unfold wrapToPi
  rw [if_pos h1, hceil]
  push_cast
  ring

lemma wrapToPi_of_lt {a : ℝ} (h1 : -(3 * π) ≤ a) (h2 : a < -π) :
    wrapToPi a = a + 2 * π := by
  have hπ : (0:ℝ) < π := pi_pos
  have hceil : (⌈(-π - a) / (2 * π)⌉ : ℤ) = 1 := by
    rw [Int.ceil_eq_iff]
    constructor
    · push_cast
      have : (0:ℝ) < (-π - a) / (2 * π) := div_pos (by linarith) (by positivity)
      linarith
    · push_cast
      rw [div_le_one (by positivity)]
      linarith
  unfold wrapToPi
  rw [if_neg (by linarith), if_pos h2, hceil]
  push_cast
  ring

lemma wrapToPi_mem (a : ℝ) : -π ≤ wrapToPi a ∧ wrapToPi a ≤ π := by
  have hπ : (0:ℝ) < π := pi_pos
  unfold wrapToPi
  split_ifs with h1 h2
  · set k : ℤ := ⌈(a - π) / (2 * π)⌉ with hk
    have h2π : (0:ℝ) < 2 * π := by positivity
    have hle : a - π ≤ (k : ℝ) * (2 * π) :=
      (div_le_iff₀ h2π).mp (Int.le_ceil _)
    have hlt : ((k : ℝ) - 1) * (2 * π) < a - π := by
      rw [← lt_div_iff₀ h2π]
      have := Int.ceil_lt_add_one ((a - π) / (2 * π))
      push_cast at this
      linarith
    constructor <;> nlinarith
  · set k : ℤ := ⌈(-π - a) / (2 * π)⌉ with hk
    have h2π : (0:ℝ) < 2 * π := by positivity
    have hle : -π - a ≤ (k : ℝ) * (2 * π) :=
      (div_le_iff₀ h2π).mp (Int.le_ceil _)
    have hlt : ((k : ℝ) - 1) * (2 * π) < -π - a := by
      rw [← lt_div_iff₀ h2π]
      have := Int.ceil_lt_add_one ((-π - a) / (2 * π))
      push_cast at this
      linarith
    constructor <;> nlinarith
  · constructor <;> linarith

lemma cos_wrapToPi (a : ℝ) : Real.cos (wrapToPi a) = Real.cos a := by
  unfold wrapToPi
  split_ifs
  · rw [show a - 2 * π * (⌈(a - π) / (2 * π)⌉ : ℤ)
        = a - (⌈(a - π) / (2 * π)⌉ : ℤ) * (2 * π) by ring]
    exact Real.cos_sub_int_mul_two_pi _ _
  · rw [show a + 2 * π * (⌈(-π - a) / (2 * π)⌉ : ℤ)
        = a - (-⌈(-π - a) / (2 * π)⌉ : ℤ) * (2 * π) by push_cast; ring]
    exact Real.cos_sub_int_mul_two_pi _ _
  · rfl

lemma sin_wrapToPi (a : ℝ) : Real.sin (wrapToPi a) = Real.sin a := by
  unfold wrapToPi
  split_ifs
  · rw [show a - 2 * π * (⌈(a - π) / (2 * π)⌉ : ℤ)
        = a - (⌈(a - π) / (2 * π)⌉ : ℤ) * (2 * π) by ring]
    exact Real.sin_sub_int_mul_two_pi _ _
  · rw [show a + 2 * π * (⌈(-π - a) / (2 * π)⌉ : ℤ)
        = a - (-⌈(-π - a) / (2 * π)⌉ : ℤ) * (2 * π) by push_cast; ring]
    exact Real.sin_sub_int_mul_two_pi _ _
  · rfl

end WrapLemmas

section Claim4and5

open Real

lemma degToRad_mono {a b : ℝ} (h : a ≤ b) : degToRad a ≤ degToRad b := by
  unfold degToRad
  have hπ : (0:ℝ) < π := pi_pos
  nlinarith

lemma startAnimation_targetAngles (st : ArmState) :
    (startAnimation st).targetAngles = st.targetAngles := by
  unfold startAnimation
  split_ifs <;> rfl

/-- **C4.** `setJointAngles` always stores the clamped value of each input
angle (converted to radians), never the raw input: with `animated = true`
the clamped values become the target angles, with `animated = false` they
immediately become the current angles; consequently each stored joint angle
lies within its static limit. -/
theorem setJointAngles_stores_clamped (st : ArmState) (b s e w : ℝ)
    (an : Bool) :
    let st' := setJointAngles st b s e w an
    let stored := if an then st'.targetAngles else st'.jointAngles
    stored.base = degToRad (clampAngle b baseLimits) ∧
    stored.shoulder = degToRad (clampAngle s shoulderLimits) ∧
    stored.elbow = degToRad (clampAngle e elbowLimits) ∧
    stored.wrist = degToRad (clampAngle w wristLimits) ∧
    (degToRad baseLimits.min ≤ stored.base ∧
      stored.base ≤ degToRad baseLimits.max) ∧
    (degToRad shoulderLimits.min ≤ stored.shoulder ∧
      stored.shoulder ≤ degToRad shoulderLimits.max) ∧
    (degToRad elbowLimits.min ≤ stored.elbow ∧
      stored.elbow ≤ degToRad elbowLimits.max) ∧
    (degToRad wristLimits.min ≤ stored.wrist ∧
      stored.wrist ≤ degToRad wristLimits.max) := by
  intro st' stored
  have hb := @clampAngle_mem baseLimits (by norm_num [baseLimits]) b
  have hs := @clampAngle_mem shoulderLimits (by norm_num [shoulderLimits]) s
  have he := @clampAngle_mem elbowLimits (by norm_num [elbowLimits]) e
  have hw := @clampAngle_mem wristLimits (by norm_num [wristLimits]) w
  have hstored :
      stored.base = degToRad (clampAngle b baseLimits) ∧
      stored.shoulder = degToRad (clampAngle s shoulderLimits) ∧
      stored.elbow = degToRad (clampAngle e elbowLimits) ∧
      stored.wrist = degToRad (clampAngle w wristLimits) := by
    cases an <;>
      simp [stored, st', setJointAngles, startAnimation_targetAngles]
  refine ⟨hstored.1, hstored.2.1, hstored.2.2.1, hstored.2.2.2, ?_, ?_, ?_, ?_⟩
  · rw [hstored.1]; exact ⟨degToRad_mono hb.1, degToRad_mono hb.2⟩
  · rw [hstored.2.1]; exact ⟨degToRad_mono hs.1, degToRad_mono hs.2⟩
  · rw [hstored.2.2.1]; exact ⟨degToRad_mono he.1, degToRad_mono he.2⟩
  · rw [hstored.2.2.2]; exact ⟨degToRad_mono hw.1, degToRad_mono hw.2⟩

lemma degToRad_170 : degToRad 170 = 17 * π / 18 := by
  unfold degToRad; ring

lemma degToRad_neg170 : degToRad (-170) = -(17 * π / 18) := by
  unfold degToRad; ring

lemma lerpAngle_170_val {u : ℝ} (h0 : 0 ≤ u) (h1 : u ≤ 1) :
    lerpAngle (degToRad 170) (degToRad (-170)) u
      = if u ≤ 1 / 2 then 17 * π / 18 + π / 9 * u
        else 17 * π / 18 + π / 9 * u - 2 * π := by
  have hπ : (0:ℝ) < π := pi_pos
  unfold lerpAngle
  rw [degToRad_170, degToRad_neg170]
  have hdiff : wrapToPi (-(17 * π / 18) - 17 * π / 18) = π / 9 := by
    rw [show -(17 * π / 18) - 17 * π / 18 = -(17 * π / 9) by ring]
    rw [wrapToPi_of_lt (by nlinarith) (by nlinarith)]
    ring
  rw [hdiff]
  split_ifs with hu
  · exact wrapToPi_of_mem (by nlinarith) (by nlinarith)
  · push_neg at hu
    rw [wrapToPi_of_gt (by nlinarith) (by nlinarith)]

lemma easeInOutCubic_mem {t : ℝ} (h0 : 0 ≤ t) (h1 : t ≤ 1) :
    0 ≤ easeInOutCubic t ∧ easeInOutCubic t ≤ 1 := by
  unfold easeInOutCubic
  have h1t : 0 ≤ 1 - t := by linarith
  split_ifs with h
  · have ht2 : t * t ≤ 1 / 4 := by nlinarith
    constructor
    · nlinarith [mul_nonneg (mul_nonneg h0 h0) h0]
    · nlinarith [mul_le_mul_of_nonneg_right ht2 h0]
  · push_neg at h
    have h5 : 1 - t ≤ 1 / 2 := by
      norm_num at h
      linarith
    have hsq : (1 - t) * (1 - t) ≤ 1 / 4 := by nlinarith
    constructor
    · nlinarith [mul_le_mul_of_nonneg_right hsq h1t]
    · nlinarith [mul_nonneg (mul_nonneg h1t h1t) h1t]

lemma easeInOutCubic_half : easeInOutCubic (1 / 2) = 1 / 2 := by
  unfold easeInOutCubic
  norm_num

/-- **C5.** During animation the base and wrist-roll channels interpolate by
shortest angular path (`lerpAngle`) and the other joints linearly (`lerp`);
interpolating the base from 170° to −170° stays within the two arcs adjacent
to ±180° (its magnitude never drops below 170°, so it never passes through
0°) for every progress value in `[0, 1]`, and it passes exactly through 180°
at progress 1/2. -/
theorem shortest_path_interpolation :
    (∀ (s t : JointAngles) (p : ℝ),
      (getAnglesAtProgress s t p).base
          = lerpAngle s.base t.base (easeInOutCubic p) ∧
      (getAnglesAtProgress s t p).shoulder
          = lerp s.shoulder t.shoulder (easeInOutCubic p) ∧
      (getAnglesAtProgress s t p).elbow
          = lerp s.elbow t.elbow (easeInOutCubic p) ∧
      (getAnglesAtProgress s t p).wrist
          = lerp s.wrist t.wrist (easeInOutCubic p) ∧
      (getAnglesAtProgress s t p).wristRotate
          = lerpAngle s.wristRotate t.wristRotate (easeInOutCubic p)) ∧
    (∀ p : ℝ, 0 ≤ p → p ≤ 1 →
      degToRad 170 ≤
        |(getAnglesAtProgress ⟨degToRad 170, 0, 0, 0, 0⟩
            ⟨degToRad (-170), 0, 0, 0, 0⟩ p).base|) ∧
    (getAnglesAtProgress ⟨degToRad 170, 0, 0, 0, 0⟩
        ⟨degToRad (-170), 0, 0, 0, 0⟩ (1 / 2)).base = π := by
  have hπ : (0:ℝ) < π := pi_pos
  refine ⟨fun s t p => ⟨rfl, rfl, rfl, rfl, rfl⟩, ?_, ?_⟩
  · intro p hp0 hp1
    have he := easeInOutCubic_mem hp0 hp1
    show degToRad 170 ≤ |lerpAngle (degToRad 170) (degToRad (-170)) (easeInOutCubic p)|
    rw [lerpAngle_170_val he.1 he.2, degToRad_170]
    split_ifs with hu
    · rw [abs_of_nonneg (by nlinarith)]
      nlinarith [he.1]
    · push_neg at hu
      rw [abs_of_nonpos (by nlinarith [he.2])]
      nlinarith [he.2]
  · show lerpAngle (degToRad 170) (degToRad (-170)) (easeInOutCubic (1 / 2)) = π
    rw [easeInOutCubic_half, lerpAngle_170_val (by norm_num) (by norm_num)]
    rw [if_pos (by norm_num)]
    ring

/-- Witness for **C5** at the concrete progress value 1/4. -/
theorem shortest_path_interpolation_witness :
    degToRad 170 ≤
      |(getAnglesAtProgress ⟨degToRad 170, 0, 0, 0, 0⟩
          ⟨degToRad (-170), 0, 0, 0, 0⟩ (1 / 4)).base| :=
  shortest_path_interpolation.2.1 (1 / 4) (by norm_num) (by norm_num)

end Claim4and5

/-! ## Inverse kinematics (`solveIK`, app.js:2204–2329) and forward
kinematics of the procedural arm (app.js:607–658, 540–541, 2177–2189). -/

noncomputable section IKDefs

open Real

/-- A 3-component vector (`THREE.Vector3` restricted to the data). -/
structure Vec3 where
  x : ℝ
  y : ℝ
  z : ℝ

/-- JavaScript's `Math.atan2(y, x)`. -/
def atan2 (y x : ℝ) : ℝ :=
  if 0 < x then arctan (y / x)
  else if x < 0 then
    (if 0 ≤ y then arctan (y / x) + π else arctan (y / x) - π)
  else
    (if 0 < y then π / 2 else if y < 0 then -(π / 2) else 0)

/-- `Math.max(-1, Math.min(1, c))`: the clamp applied to every trig ratio
before `Math.acos` (app.js:2253, 2262). -/
def clampUnit (c : ℝ) : ℝ := max (-1) (min 1 c)

/-- `L3` of `solveIK`: wrist pivot to clamp tips
(`wristLength + 0.06 + gripperLength`, app.js:2209). -/
def ikL3 : ℝ := wristLength + 0.06 + gripperLength

/-- Shoulder-pivot height of `solveIK` (`baseHeight + 0.15`, app.js:2210). -/
def ikShoulderHeight : ℝ := baseHeight + 0.15

/-- `armReach = L1 + L2` (app.js:2212). -/
def armReach : ℝ := shoulderLength + elbowLength

/-- `baseAngle` of `solveIK` (app.js:2223–2226): `π - atan2(y, x)`,
normalised into `[-π, π]` by the two while loops. -/
def ikBaseAngle (targetX targetY : ℝ) : ℝ :=
  wrapToPi (π - atan2 targetY targetX)

/-- `r`, the horizontal target distance (app.js:2229). -/
def ikR (targetX targetY : ℝ) : ℝ :=
  Real.sqrt (targetX * targetX + targetY * targetY)

/-- `wristH = (targetZ - shoulder height) + L3` (app.js:2230, 2235). -/
def ikWristH (targetZ : ℝ) : ℝ := (targetZ - ikShoulderHeight) + ikL3

/-- `wristDist`, planar distance from the shoulder pivot to the wrist point
(app.js:2236); `wristR = r`. -/
def ikWristDist (targetX targetY targetZ : ℝ) : ℝ :=
  Real.sqrt (ikR targetX targetY * ikR targetX targetY
    + ikWristH targetZ * ikWristH targetZ)

/-- `cosElbowInternal`, clamped (app.js:2252–2253). -/
def ikCosElbowInternal (targetX targetY targetZ : ℝ) : ℝ :=
  clampUnit ((shoulderLength * shoulderLength + elbowLength * elbowLength
      - ikWristDist targetX targetY targetZ * ikWristDist targetX targetY targetZ)
    / (2 * shoulderLength * elbowLength))

/-- `elbowInternalAngle` (app.js:2254). -/
def ikElbowInternalAngle (targetX targetY targetZ : ℝ) : ℝ :=
  arccos (ikCosElbowInternal targetX targetY targetZ)

/-- `angleToWristFromVertical = atan2(wristR, wristH)` (app.js:2258). -/
def ikAngleToWrist (targetX targetY targetZ : ℝ) : ℝ :=
  atan2 (ikR targetX targetY) (ikWristH targetZ)

/-- `cosAlpha`, clamped (app.js:2261–2262). -/
def ikCosAlpha (targetX targetY targetZ : ℝ) : ℝ :=
  clampUnit ((shoulderLength * shoulderLength
      + ikWristDist targetX targetY targetZ * ikWristDist targetX targetY targetZ
      - elbowLength * elbowLength)
    / (2 * shoulderLength * ikWristDist targetX targetY targetZ))

/-- `alpha` (app.js:2263). -/
def ikAlpha (targetX targetY targetZ : ℝ) : ℝ :=
  arccos (ikCosAlpha targetX targetY targetZ)

/-- `shoulderDown` of configuration 1 (app.js:2283). -/
def ikShoulderDown (targetX targetY targetZ : ℝ) : ℝ :=
  ikAngleToWrist targetX targetY targetZ + ikAlpha targetX targetY targetZ

/-- `elbowDown` of configuration 1 (app.js:2284). -/
def ikElbowDown (targetX targetY targetZ : ℝ) : ℝ :=
  -(π - ikElbowInternalAngle targetX targetY targetZ)

/-- `wristDown` of configuration 1 (app.js:2285);
`desiredGripperAngle = π`. -/
def ikWristDown (targetX targetY targetZ : ℝ) : ℝ :=
  π - ikShoulderDown targetX targetY targetZ - ikElbowDown targetX targetY targetZ

/-- `shoulderUp` of configuration 2 (app.js:2296). -/
def ikShoulderUp (targetX targetY targetZ : ℝ) : ℝ :=
  ikAngleToWrist targetX targetY targetZ - ikAlpha targetX targetY targetZ

/-- `elbowUp` of configuration 2 (app.js:2297). -/
def ikElbowUp (targetX targetY targetZ : ℝ) : ℝ :=
  π - ikElbowInternalAngle targetX targetY targetZ

/-- `wristUp` of configuration 2 (app.js:2298). -/
def ikWristUp (targetX targetY targetZ : ℝ) : ℝ :=
  π - ikShoulderUp targetX targetY targetZ - ikElbowUp targetX targetY targetZ

/-- The static-limit test a candidate configuration must pass
(app.js:2287–2289, 2300–2302), in radians. -/
def configValid (s e w : ℝ) : Prop :=
  degToRad shoulderLimits.min ≤ s ∧ s ≤ degToRad shoulderLimits.max ∧
  degToRad elbowLimits.min ≤ e ∧ e ≤ degToRad elbowLimits.max ∧
  degToRad wristLimits.min ≤ w ∧ w ≤ degToRad wristLimits.max

/-- Configuration 1 (elbow-down) passes the limit checks. -/
def ikDownValid (targetX targetY targetZ : ℝ) : Prop :=
  configValid (ikShoulderDown targetX targetY targetZ)
    (ikElbowDown targetX targetY targetZ) (ikWristDown targetX targetY targetZ)

/-- Configuration 2 (elbow-up) passes the limit checks. -/
def ikUpValid (targetX targetY targetZ : ℝ) : Prop :=
  configValid (ikShoulderUp targetX targetY targetZ)
    (ikElbowUp targetX targetY targetZ) (ikWristUp targetX targetY targetZ)

/-- The failure modes of `solveIK`, one per returned error string. -/
inductive IKError where
  | belowFloor
  | tooFar
  | tooClose
  | unreachable
deriving DecidableEq

/-- The degree-valued angle record of a successful `solveIK` result
(app.js:2321–2326). -/
structure IKAngles where
  base : ℝ
  shoulder : ℝ
  elbow : ℝ
  wrist : ℝ

/-- `{success, angles | error}` of `solveIK`. -/
inductive IKResult where
  | success (angles : IKAngles)
  | failure (error : IKError)

/-- Radians to degrees, the `* 180 / Math.PI` boundary conversion. -/
def radToDeg (r : ℝ) : ℝ := r * 180 / π

open Classical in
/-- `solveIK(x, y, z)` (app.js:2204–2329): guards in source order, two
candidate configurations filtered by the static limits, the first surviving
one returned in degrees. It reads only `CONFIG` and is pure; the embedding
is accordingly a function of its arguments alone. -/
def solveIK (targetX targetY targetZ : ℝ) : IKResult :=
  if targetZ < 0 then .failure .belowFloor
  else if ikWristDist targetX targetY targetZ > armReach * 0.98 then
    .failure .tooFar
  else if ikWristDist targetX targetY targetZ < 0.02 then .failure .tooClose
  else
    let configs : List (ℝ × ℝ × ℝ) :=
      (if ikDownValid targetX targetY targetZ then
        [(ikShoulderDown targetX targetY targetZ,
          ikElbowDown targetX targetY targetZ,
          ikWristDown targetX targetY targetZ)]
      else []) ++
      (if ikUpValid targetX targetY targetZ then
        [(ikShoulderUp targetX targetY targetZ,
          ikElbowUp targetX targetY targetZ,
          ikWristUp targetX targetY targetZ)]
      else [])
    match configs with
    | [] => .failure .unreachable
    | chosen :: _ =>
        .success
          { base := radToDeg (ikBaseAngle targetX targetY)
            shoulder := radToDeg chosen.1
            elbow := radToDeg chosen.2.1
            wrist := radToDeg chosen.2.2 }

/-- The base angle of a successful result, if any. -/
def IKResult.baseAngle? : IKResult → Option ℝ
  | .success a => some a.base
  | .failure _ => none

/-- Forward kinematics of the end-effector marker through the procedural
scene graph (app.js:607–658: base pivot at world height 0.15, shoulder pivot
`baseHeight` above it, links of `shoulderLength`/`elbowLength` along local Y,
wrist-roll pivot at `wristLength`, gripper group at 0.06, marker at
`gripperLength`), read back through the three.js→robotics conversion of
`getEndEffectorPosition` (app.js:2177–2189): robotics `x = pos.x`,
`y = pos.z`, `z = pos.y`. `rotation.z = θ` tilts each link θ from vertical;
wrist roll spins about the local arm axis and all later offsets lie on that
axis, so it does not move the marker. -/
def fkEndEffector (base shoulder elbow wrist : ℝ) : Vec3 :=
  let planarX : ℝ :=
    -(shoulderLength * Real.sin shoulder
      + elbowLength * Real.sin (shoulder + elbow)
      + (wristLength + 0.06 + gripperLength)
        * Real.sin (shoulder + elbow + wrist))
  let planarY : ℝ :=
    baseHeight + shoulderLength * Real.cos shoulder
      + elbowLength * Real.cos (shoulder + elbow)
      + (wristLength + 0.06 + gripperLength)
        * Real.cos (shoulder + elbow + wrist)
  { x := planarX * Real.cos base
    y := -(planarX * Real.sin base)
    z := 0.15 + planarY }

end IKDefs

section Claim1

open Real

/-- **C1.** `solveIK` returns a failure exactly when, checked in this order:
the target height is negative; the wrist point's planar distance from the
shoulder pivot exceeds 98% of the two-link reach; that distance is below the
2 cm epsilon; or neither the elbow-down nor the elbow-up candidate satisfies
all static shoulder/elbow/wrist limits. In every other case it returns
success. (The embedding is a pure function of its arguments — the source
reads only `CONFIG` and touches no mutable state — so no state is mutated on
either path.) -/
theorem solveIK_failure_characterization (tx ty tz : ℝ) :
    (solveIK tx ty tz = .failure .belowFloor ↔ tz < 0) ∧
    (solveIK tx ty tz = .failure .tooFar ↔
      ¬tz < 0 ∧ ikWristDist tx ty tz > armReach * 0.98) ∧
    (solveIK tx ty tz = .failure .tooClose ↔
      ¬tz < 0 ∧ ¬ikWristDist tx ty tz > armReach * 0.98 ∧
        ikWristDist tx ty tz < 0.02) ∧
    (solveIK tx ty tz = .failure .unreachable ↔
      ¬tz < 0 ∧ ¬ikWristDist tx ty tz > armReach * 0.98 ∧
        ¬ikWristDist tx ty tz < 0.02 ∧
        ¬ikDownValid tx ty tz ∧ ¬ikUpValid tx ty tz) ∧
    ((∃ a, solveIK tx ty tz = .success a) ↔
      ¬tz < 0 ∧ ¬ikWristDist tx ty tz > armReach * 0.98 ∧
        ¬ikWristDist tx ty tz < 0.02 ∧
        (ikDownValid tx ty tz ∨ ikUpValid tx ty tz)) := by
  by_cases h1 : tz < 0
  · simp [solveIK, h1]
  by_cases h2 : ikWristDist tx ty tz > armReach * 0.98
  · simp [solveIK, h1, h2]
  by_cases h3 : ikWristDist tx ty tz < 0.02
  · simp [solveIK, h1, h2, h3]
  by_cases hd : ikDownValid tx ty tz <;>
    by_cases hu : ikUpValid tx ty tz <;>
      simp [solveIK, h1, h2, h3, hd, hu]

end Claim1

section Atan2Facts

open Real

lemma cos_sin_atan2 {y x : ℝ} (h : ¬(x = 0 ∧ y = 0)) :
    Real.cos (atan2 y x) = x / Real.sqrt (x * x + y * y) ∧
    Real.sin (atan2 y x) = y / Real.sqrt (x * x + y * y) := by
  have hsum : 0 < x * x + y * y := by
    rcases not_and_or.mp h with hx | hy
    · have : 0 < x * x := mul_self_pos.mpr hx
      nlinarith [mul_self_nonneg y]
    · have : 0 < y * y := mul_self_pos.mpr hy
      nlinarith [mul_self_nonneg x]
  have hn : 0 < Real.sqrt (x * x + y * y) := Real.sqrt_pos.mpr hsum
  have hmain : ∀ x' : ℝ, x' ≠ 0 →
      Real.sqrt (1 + (y / x') ^ 2) = Real.sqrt (x' * x' + y * y) / |x'| := by
    intro x' hx'
    have h1t : 1 + (y / x') ^ 2 = (x' * x' + y * y) / (x' * x') := by
      field_simp
      ring
    rw [h1t,
      Real.sqrt_div (add_nonneg (mul_self_nonneg _) (mul_self_nonneg _)),
      Real.sqrt_mul_self_eq_abs]
  have hn' : Real.sqrt (x * x + y * y) ≠ 0 := ne_of_gt hn
  unfold atan2
  split_ifs with hx hxneg hy hy2 hy3
  · -- 0 < x
    have hx' : x ≠ 0 := ne_of_gt hx
    have habs : |x| = x := abs_of_pos hx
    constructor
    · rw [Real.cos_arctan, hmain x hx', habs, one_div_div]
    · rw [Real.sin_arctan, hmain x hx', habs]
      field_simp
  · -- x < 0, 0 ≤ y
    have hx' : x ≠ 0 := ne_of_lt hxneg
    have habs : |x| = -x := abs_of_neg hxneg
    constructor
    · rw [Real.cos_add_pi, Real.cos_arctan, hmain x hx', habs]
      field_simp
    · rw [Real.sin_add_pi, Real.sin_arctan, hmain x hx', habs]
      field_simp
      ring
  · -- x < 0, y < 0
    have hx' : x ≠ 0 := ne_of_lt hxneg
    have habs : |x| = -x := abs_of_neg hxneg
    constructor
    · rw [Real.cos_sub_pi, Real.cos_arctan, hmain x hx', habs]
      field_simp
    · rw [Real.sin_sub_pi, Real.sin_arctan, hmain x hx', habs]
      field_simp
      ring
  · -- x = 0, 0 < y
    have hx0 : x = 0 := by push_neg at hx hxneg; linarith
    subst hx0
    have : Real.sqrt (0 * 0 + y * y) = y := by
      rw [show (0 * 0 + y * y : ℝ) = y * y by ring, Real.sqrt_mul_self hy2.le]
    rw [this, Real.cos_pi_div_two, Real.sin_pi_div_two]
    constructor
    · simp
    · rw [div_self (ne_of_gt hy2)]
  · -- x = 0, y < 0
    have hx0 : x = 0 := by push_neg at hx hxneg; linarith
    subst hx0
    have : Real.sqrt (0 * 0 + y * y) = -y := by
      rw [show (0 * 0 + y * y : ℝ) = -y * -y by ring,
        Real.sqrt_mul_self (by linarith)]
    rw [this, Real.cos_neg, Real.sin_neg, Real.cos_pi_div_two, Real.sin_pi_div_two]
    constructor
    · simp
    · rw [div_neg, div_self (by linarith : y ≠ 0)]
  · -- x = 0, y = 0: excluded
    exact absurd ⟨by push_neg at hx hxneg; linarith,
      by push_neg at hy2 hy3; linarith⟩ h

end Atan2Facts

section IKRoundtrip

open Real

lemma armReach_val : armReach * 0.98 = 2.94 := by
  norm_num [armReach, shoulderLength, elbowLength]

lemma degToRad_radToDeg (x : ℝ) : degToRad (radToDeg x) = x := by
  unfold degToRad radToDeg
  field_simp

lemma radToDeg_mono {a b : ℝ} (h : a ≤ b) : radToDeg a ≤ radToDeg b := by
  unfold radToDeg
  exact (div_le_div_iff_of_pos_right pi_pos).mpr (by nlinarith)

lemma radToDeg_degToRad (x : ℝ) : radToDeg (degToRad x) = x := by
  unfold degToRad radToDeg
  field_simp

/-- Unfolding `solveIK ... = success a`: the guards hold and `a` is the
first valid configuration. -/
lemma solveIK_success_elim {tx ty tz : ℝ} {a : IKAngles}
    (h : solveIK tx ty tz = .success a) :
    ¬tz < 0 ∧ 0.02 ≤ ikWristDist tx ty tz ∧
    ikWristDist tx ty tz ≤ armReach * 0.98 ∧
    ((ikDownValid tx ty tz ∧
        a = ⟨radToDeg (ikBaseAngle tx ty), radToDeg (ikShoulderDown tx ty tz),
             radToDeg (ikElbowDown tx ty tz), radToDeg (ikWristDown tx ty tz)⟩) ∨
     (ikUpValid tx ty tz ∧
        a = ⟨radToDeg (ikBaseAngle tx ty), radToDeg (ikShoulderUp tx ty tz),
             radToDeg (ikElbowUp tx ty tz), radToDeg (ikWristUp tx ty tz)⟩)) := by
  by_cases h1 : tz < 0
  · simp [solveIK, h1] at h
  by_cases h2 : ikWristDist tx ty tz > armReach * 0.98
  · simp [solveIK, h1, h2] at h
  by_cases h3 : ikWristDist tx ty tz < 0.02
  · simp [solveIK, h1, h2, h3] at h
  refine ⟨h1, not_lt.mp h3, not_lt.mp h2, ?_⟩
  by_cases hd : ikDownValid tx ty tz
  · left
    refine ⟨hd, ?_⟩
    simp [solveIK, h1, h2, h3, hd] at h
    exact h.symm
  by_cases hu : ikUpValid tx ty tz
  · right
    refine ⟨hu, ?_⟩
    simp [solveIK, h1, h2, h3, hd, hu] at h
    exact h.symm
  · simp [solveIK, h1, h2, h3, hd, hu] at h

lemma ikWristDist_nonneg (tx ty tz : ℝ) : 0 ≤ ikWristDist tx ty tz :=
  Real.sqrt_nonneg _

lemma ikR_nonneg (tx ty : ℝ) : 0 ≤ ikR tx ty := Real.sqrt_nonneg _

lemma ikWristDist_sq (tx ty tz : ℝ) :
    ikWristDist tx ty tz * ikWristDist tx ty tz
      = ikR tx ty * ikR tx ty + ikWristH tz * ikWristH tz :=
  Real.mul_self_sqrt (add_nonneg (mul_self_nonneg _) (mul_self_nonneg _))

lemma ikWristDist_pos {tx ty tz : ℝ}
    (h3 : 0.02 ≤ ikWristDist tx ty tz) : 0 < ikWristDist tx ty tz :=
  lt_of_lt_of_le (by norm_num) h3

lemma ikCosAlpha_eq {tx ty tz : ℝ}
    (h2 : ikWristDist tx ty tz ≤ armReach * 0.98)
    (h3 : 0.02 ≤ ikWristDist tx ty tz) :
    ikCosAlpha tx ty tz = ikWristDist tx ty tz / 3 := by
  have hd := ikWristDist_pos h3
  have h294 : ikWristDist tx ty tz ≤ 2.94 := armReach_val ▸ h2
  unfold ikCosAlpha clampUnit
  rw [show (shoulderLength * shoulderLength
      + ikWristDist tx ty tz * ikWristDist tx ty tz
      - elbowLength * elbowLength)
    / (2 * shoulderLength * ikWristDist tx ty tz)
      = ikWristDist tx ty tz / 3 by
    rw [shoulderLength, elbowLength]
    field_simp
    ring]
  rw [min_eq_right (by linarith), max_eq_right (by linarith)]

lemma ikCosElbow_eq {tx ty tz : ℝ}
    (h2 : ikWristDist tx ty tz ≤ armReach * 0.98)
    (h3 : 0.02 ≤ ikWristDist tx ty tz) :
    ikCosElbowInternal tx ty tz
      = 1 - 2 * (ikWristDist tx ty tz * ikWristDist tx ty tz) / 9 := by
  have hd := ikWristDist_pos h3
  have h294 : ikWristDist tx ty tz ≤ 2.94 := armReach_val ▸ h2
  unfold ikCosElbowInternal clampUnit
  rw [show (shoulderLength * shoulderLength + elbowLength * elbowLength
      - ikWristDist tx ty tz * ikWristDist tx ty tz)
    / (2 * shoulderLength * elbowLength)
      = 1 - 2 * (ikWristDist tx ty tz * ikWristDist tx ty tz) / 9 by
    rw [shoulderLength, elbowLength]
    ring]
  rw [min_eq_right (by nlinarith), max_eq_right (by nlinarith)]

lemma cos_ikAlpha {tx ty tz : ℝ}
    (h2 : ikWristDist tx ty tz ≤ armReach * 0.98)
    (h3 : 0.02 ≤ ikWristDist tx ty tz) :
    Real.cos (ikAlpha tx ty tz) = ikWristDist tx ty tz / 3 := by
  have hd := ikWristDist_pos h3
  have h294 : ikWristDist tx ty tz ≤ 2.94 := armReach_val ▸ h2
  unfold ikAlpha
  rw [ikCosAlpha_eq h2 h3]
  exact Real.cos_arccos (by linarith) (by linarith)

lemma ikAlpha_mem {tx ty tz : ℝ}
    (h2 : ikWristDist tx ty tz ≤ armReach * 0.98)
    (h3 : 0.02 ≤ ikWristDist tx ty tz) :
    0 ≤ ikAlpha tx ty tz ∧ ikAlpha tx ty tz ≤ π / 2 := by
  have hd := ikWristDist_pos h3
  refine ⟨Real.arccos_nonneg _, ?_⟩
  unfold ikAlpha
  rw [ikCosAlpha_eq h2 h3]
  exact Real.arccos_le_pi_div_two.mpr (by linarith)

lemma ikElbowInternal_eq {tx ty tz : ℝ}
    (h2 : ikWristDist tx ty tz ≤ armReach * 0.98)
    (h3 : 0.02 ≤ ikWristDist tx ty tz) :
    ikElbowInternalAngle tx ty tz = π - 2 * ikAlpha tx ty tz := by
  obtain ⟨hα0, hα2⟩ := ikAlpha_mem h2 h3
  unfold ikElbowInternalAngle
  rw [ikCosElbow_eq h2 h3]
  rw [show (1 : ℝ) - 2 * (ikWristDist tx ty tz * ikWristDist tx ty tz) / 9
      = Real.cos (π - 2 * ikAlpha tx ty tz) by
    rw [Real.cos_pi_sub, Real.cos_two_mul, cos_ikAlpha h2 h3]
    ring]
  exact Real.arccos_cos (by linarith) (by linarith)

lemma cos_sin_ikAngleToWrist {tx ty tz : ℝ}
    (h3 : 0.02 ≤ ikWristDist tx ty tz) :
    Real.cos (ikAngleToWrist tx ty tz) = ikWristH tz / ikWristDist tx ty tz ∧
    Real.sin (ikAngleToWrist tx ty tz) = ikR tx ty / ikWristDist tx ty tz := by
  have hd := ikWristDist_pos h3
  have hne : ¬(ikWristH tz = 0 ∧ ikR tx ty = 0) := by
    rintro ⟨hw, hr⟩
    rw [ikWristDist, hw, hr] at hd
    norm_num at hd
  have h := @cos_sin_atan2 (ikR tx ty) (ikWristH tz) hne
  have hsq : Real.sqrt (ikWristH tz * ikWristH tz + ikR tx ty * ikR tx ty)
      = ikWristDist tx ty tz := by
    rw [ikWristDist, add_comm]
  rw [hsq] at h
  exact ⟨h.1, h.2⟩

lemma ik_closure_sin {tx ty tz : ℝ}
    (h2 : ikWristDist tx ty tz ≤ armReach * 0.98)
    (h3 : 0.02 ≤ ikWristDist tx ty tz) :
    shoulderLength * Real.sin (ikAngleToWrist tx ty tz + ikAlpha tx ty tz)
      + elbowLength * Real.sin (ikAngleToWrist tx ty tz - ikAlpha tx ty tz)
      = ikR tx ty := by
  have hd := ikWristDist_pos h3
  obtain ⟨_, hsin⟩ := @cos_sin_ikAngleToWrist tx ty tz h3
  have hcα := cos_ikAlpha h2 h3
  rw [Real.sin_add, Real.sin_sub, shoulderLength, elbowLength, hsin, hcα]
  field_simp
  ring

lemma ik_closure_cos {tx ty tz : ℝ}
    (h2 : ikWristDist tx ty tz ≤ armReach * 0.98)
    (h3 : 0.02 ≤ ikWristDist tx ty tz) :
    shoulderLength * Real.cos (ikAngleToWrist tx ty tz + ikAlpha tx ty tz)
      + elbowLength * Real.cos (ikAngleToWrist tx ty tz - ikAlpha tx ty tz)
      = ikWristH tz := by
  have hd := ikWristDist_pos h3
  obtain ⟨hcos, _⟩ := @cos_sin_ikAngleToWrist tx ty tz h3
  have hcα := cos_ikAlpha h2 h3
  rw [Real.cos_add, Real.cos_sub, shoulderLength, elbowLength, hcos, hcα]
  field_simp
  ring

/-- Forward kinematics applied to any configuration satisfying the two-link
closure equations, with the wrist completing the angles to π, lands exactly
on the target. -/
lemma fk_of_config (tx ty tz : ℝ) (s e : ℝ)
    (hsin : shoulderLength * Real.sin s + elbowLength * Real.sin (s + e)
      = ikR tx ty)
    (hcos : shoulderLength * Real.cos s + elbowLength * Real.cos (s + e)
      = ikWristH tz) :
    fkEndEffector (ikBaseAngle tx ty) s e (π - s - e) = ⟨tx, ty, tz⟩ := by
  have hb_cos : Real.cos (ikBaseAngle tx ty) = -Real.cos (atan2 ty tx) := by
    unfold ikBaseAngle
    rw [cos_wrapToPi, Real.cos_pi_sub]
  have hb_sin : Real.sin (ikBaseAngle tx ty) = Real.sin (atan2 ty tx) := by
    unfold ikBaseAngle
    rw [sin_wrapToPi, Real.sin_pi_sub]
  unfold fkEndEffector
  rw [show s + e + (π - s - e) = π by ring, Real.sin_pi, Real.cos_pi]
  have hplanarX :
      -(shoulderLength * Real.sin s + elbowLength * Real.sin (s + e)
        + (wristLength + 0.06 + gripperLength) * 0) = -ikR tx ty := by
    rw [mul_zero, add_zero, hsin]
  have hz :
      0.15 + (baseHeight + shoulderLength * Real.cos s
        + elbowLength * Real.cos (s + e)
        + (wristLength + 0.06 + gripperLength) * (-1)) = tz := by
    have : ikWristH tz = tz - 0.55 + 0.71 := by
      unfold ikWristH ikShoulderHeight ikL3 baseHeight wristLength gripperLength
      norm_num
    rw [baseHeight, wristLength, gripperLength]
    linarith [hcos, this]
  simp only [Vec3.mk.injEq]
  refine ⟨?_, ?_, ?_⟩
  · -- x component
    rw [hplanarX, hb_cos]
    by_cases hr : ikR tx ty = 0
    · have hxy : tx = 0 := by
        have := Real.sqrt_eq_zero'.mp hr
        nlinarith [mul_self_nonneg tx, mul_self_nonneg ty]
      rw [hr, hxy]
      ring
    · have hne : ¬(tx = 0 ∧ ty = 0) := by
        rintro ⟨hx0, hy0⟩
        apply hr
        rw [ikR, hx0, hy0]
        norm_num
      obtain ⟨hc, _⟩ := @cos_sin_atan2 ty tx hne
      rw [show Real.sqrt (tx * tx + ty * ty) = ikR tx ty from rfl] at hc
      rw [hc]
      field_simp
  · -- y component
    rw [hplanarX, hb_sin]
    by_cases hr : ikR tx ty = 0
    · have hxy : ty = 0 := by
        have := Real.sqrt_eq_zero'.mp hr
        nlinarith [mul_self_nonneg tx, mul_self_nonneg ty]
      rw [hr, hxy]
      ring
    · have hne : ¬(tx = 0 ∧ ty = 0) := by
        rintro ⟨hx0, hy0⟩
        apply hr
        rw [ikR, hx0, hy0]
        norm_num
      obtain ⟨_, hs⟩ := @cos_sin_atan2 ty tx hne
      rw [show Real.sqrt (tx * tx + ty * ty) = ikR tx ty from rfl] at hs
      rw [hs]
      field_simp
  · exact hz

/-- **C2 (amended).** Whenever `solveIK` succeeds, feeding the returned
degree angles back through the forward kinematics reproduces the target
exactly (the claim's "small tolerance" is 0 in the real-number model), and
the returned shoulder + elbow + wrist angles sum to π — the gripper points
straight down. The claim's further assertion that `solveIK` succeeds for
*every* reachable target with `z ≥ 0` within 95% of max reach is refuted by
`solveIK_rejects_reachable_target`. -/
theorem solveIK_roundtrip (tx ty tz : ℝ) (a : IKAngles)
    (h : solveIK tx ty tz = .success a) :
    fkEndEffector (degToRad a.base) (degToRad a.shoulder) (degToRad a.elbow)
        (degToRad a.wrist) = ⟨tx, ty, tz⟩ ∧
    degToRad a.shoulder + degToRad a.elbow + degToRad a.wrist = π := by
  obtain ⟨h1, h3, h2, hcfg⟩ := solveIK_success_elim h
  have hse_down : ikShoulderDown tx ty tz + ikElbowDown tx ty tz
      = ikAngleToWrist tx ty tz - ikAlpha tx ty tz := by
    unfold ikShoulderDown ikElbowDown
    rw [ikElbowInternal_eq h2 h3]
    ring
  have hse_up : ikShoulderUp tx ty tz + ikElbowUp tx ty tz
      = ikAngleToWrist tx ty tz + ikAlpha tx ty tz := by
    unfold ikShoulderUp ikElbowUp
    rw [ikElbowInternal_eq h2 h3]
    ring
  have hLL : shoulderLength = elbowLength := by
    rw [shoulderLength, elbowLength]
  rcases hcfg with ⟨_, ha⟩ | ⟨_, ha⟩
  · subst ha
    simp only [degToRad_radToDeg]
    constructor
    · have hw : ikWristDown tx ty tz
          = π - ikShoulderDown tx ty tz - ikElbowDown tx ty tz := rfl
      rw [hw]
      apply fk_of_config
      · rw [hse_down]
        exact ik_closure_sin h2 h3
      · rw [hse_down]
        exact ik_closure_cos h2 h3
    · unfold ikWristDown
      ring
  · subst ha
    simp only [degToRad_radToDeg]
    constructor
    · have hw : ikWristUp tx ty tz
          = π - ikShoulderUp tx ty tz - ikElbowUp tx ty tz := rfl
      rw [hw]
      apply fk_of_config
      · rw [hse_up]
        have hcl := @ik_closure_sin tx ty tz h2 h3
        unfold ikShoulderUp
        rw [hLL] at hcl ⊢
        linarith [hcl]
      · rw [hse_up]
        have hcl := @ik_closure_cos tx ty tz h2 h3
        unfold ikShoulderUp
        rw [hLL] at hcl ⊢
        linarith [hcl]
    · unfold ikWristUp
      ring

end IKRoundtrip

section IKConcrete

open Real

lemma sqrt_le_of_sq_le {x y : ℝ} (hy : 0 ≤ y) (h : x ≤ y ^ 2) :
    Real.sqrt x ≤ y := by
  calc Real.sqrt x ≤ Real.sqrt (y ^ 2) := Real.sqrt_le_sqrt h
  _ = y := Real.sqrt_sq hy

lemma arccos_sqrt_two_div_two : Real.arccos (√2 / 2) = π / 4 := by
  rw [← Real.cos_pi_div_four]
  exact Real.arccos_cos (by positivity) (by linarith [pi_pos])

lemma sqrt_two_div_two_lt_one : √2 / 2 ≤ 1 := by
  have : √2 ≤ 2 := sqrt_le_of_sq_le (by norm_num) (by norm_num)
  linarith

/-- Concrete evaluation: at world target `(0, 0.5, 0.5)` both IK candidates
violate the ±135° elbow limit (the internal elbow angle is ≈148°), so
`solveIK` reports the joint-limit failure. -/
lemma solveIK_at_0_05_05 :
    solveIK 0 (1/2) (1/2) = .failure .unreachable := by
  have hR : ikR 0 (1/2) = 1/2 := by
    rw [ikR, show (0 * 0 + 1/2 * (1/2) : ℝ) = 1/2 * (1/2) by norm_num,
      Real.sqrt_mul_self (by norm_num)]
  have hH : ikWristH (1/2) = 33/50 := by
    norm_num [ikWristH, ikShoulderHeight, ikL3, baseHeight, wristLength,
      gripperLength]
  have hdd : ikWristDist 0 (1/2) (1/2) * ikWristDist 0 (1/2) (1/2)
      = 857/1250 := by
    rw [ikWristDist_sq, hR, hH]
    norm_num
  have hdle : ikWristDist 0 (1/2) (1/2) ≤ 2.94 := by
    rw [ikWristDist, hR, hH]
    exact sqrt_le_of_sq_le (by norm_num) (by norm_num)
  have hdge : (0.02 : ℝ) ≤ ikWristDist 0 (1/2) (1/2) := by
    rw [ikWristDist, hR, hH]
    rw [Real.le_sqrt (by norm_num) (by norm_num)]
    norm_num
  have hg2 : ¬ikWristDist 0 (1/2) (1/2) > armReach * 0.98 := by
    rw [armReach_val]
    exact not_lt.mpr hdle
  have hg3 : ¬ikWristDist 0 (1/2) (1/2) < 0.02 :=
    not_lt.mpr hdge
  have hcosE : ikCosElbowInternal 0 (1/2) (1/2) = 4768/5625 := by
    rw [ikCosElbow_eq (armReach_val ▸ hdle) hdge, hdd]
    norm_num
  have hElt : ikElbowInternalAngle 0 (1/2) (1/2) < π / 4 := by
    unfold ikElbowInternalAngle
    rw [hcosE, ← arccos_sqrt_two_div_two]
    apply strictAntiOn_arccos
    · constructor
      · have := Real.sqrt_nonneg 2
        norm_num
        linarith
      · exact sqrt_two_div_two_lt_one
    · constructor <;> norm_num
    · have : √2 < 9536/5625 := by
        rw [Real.sqrt_lt' (by norm_num)]
        norm_num
      linarith
  have hmin : degToRad elbowLimits.min = -(3 * π / 4) := by
    simp only [elbowLimits]
    unfold degToRad
    ring
  have hmax : degToRad elbowLimits.max = 3 * π / 4 := by
    simp only [elbowLimits]
    unfold degToRad
    ring
  have hdown : ¬ikDownValid 0 (1/2) (1/2) := by
    intro h
    have he := h.2.2.1
    rw [hmin] at he
    unfold ikElbowDown at he
    linarith
  have hup : ¬ikUpValid 0 (1/2) (1/2) := by
    intro h
    have he := h.2.2.2.1
    rw [hmax] at he
    unfold ikElbowUp at he
    linarith
  have hg1 : ¬((1:ℝ)/2 < 0) := by norm_num
  unfold solveIK
  rw [if_neg hg1, if_neg hg2, if_neg hg3, if_neg hdown, if_neg hup]
  rfl

/-- **C2, counterexample.** The world target `(0, 0.5, 0.5)` (50 cm ahead,
50 cm up) has `z ≥ 0`, horizontal distance well within 95% of the two-link
reach, and its wrist point is reachable (within 98% of `L1+L2`), yet
`solveIK` fails: both elbow candidates violate the static elbow limit. So
"for every reachable target … `solveIK` succeeds" is false as stated. -/
theorem solveIK_rejects_reachable_target :
    (0:ℝ) ≤ 1/2 ∧
    ikR 0 (1/2) ≤ 0.95 * armReach ∧
    ikWristDist 0 (1/2) (1/2) ≤ 0.98 * armReach ∧
    solveIK 0 (1/2) (1/2) = .failure .unreachable := by
  have hR : ikR 0 (1/2) = 1/2 := by
    rw [ikR, show (0 * 0 + 1/2 * (1/2) : ℝ) = 1/2 * (1/2) by norm_num,
      Real.sqrt_mul_self (by norm_num)]
  have hH : ikWristH (1/2) = 33/50 := by
    norm_num [ikWristH, ikShoulderHeight, ikL3, baseHeight, wristLength,
      gripperLength]
  refine ⟨by norm_num, ?_, ?_, solveIK_at_0_05_05⟩
  · rw [hR]
    norm_num [armReach, shoulderLength, elbowLength]
  · rw [ikWristDist, hR, hH]
    have : (0.98 : ℝ) * armReach = 2.94 := by
      rw [mul_comm]
      exact armReach_val
    rw [this]
    exact sqrt_le_of_sq_le (by norm_num) (by norm_num)

/-- Concrete success: world target `(1.5, 0, 1.34)` yields the elbow-up
solution with base 180°, shoulder 0°, elbow 90°, wrist 90°. -/
lemma solveIK_at_15_0_134 :
    solveIK (3/2) 0 (67/50) = .success ⟨180, 0, 90, 90⟩ := by
  have hπ : (0:ℝ) < π := pi_pos
  have hR : ikR (3/2) 0 = 3/2 := by
    rw [ikR, show (3/2 * (3/2) + 0 * 0 : ℝ) = 3/2 * (3/2) by norm_num,
      Real.sqrt_mul_self (by norm_num)]
  have hH : ikWristH (67/50) = 3/2 := by
    norm_num [ikWristH, ikShoulderHeight, ikL3, baseHeight, wristLength,
      gripperLength]
  have hdval : ikWristDist (3/2) 0 (67/50) = Real.sqrt (9/2) := by
    rw [ikWristDist, hR, hH]
    norm_num
  have hdd : Real.sqrt (9/2) * Real.sqrt (9/2) = 9/2 :=
    Real.mul_self_sqrt (by norm_num)
  have hdle : ikWristDist (3/2) 0 (67/50) ≤ 2.94 := by
    rw [hdval]
    exact sqrt_le_of_sq_le (by norm_num) (by norm_num)
  have hdge : (0.02 : ℝ) ≤ ikWristDist (3/2) 0 (67/50) := by
    rw [hdval, Real.le_sqrt (by norm_num) (by norm_num)]
    norm_num
  have hg2 : ¬ikWristDist (3/2) 0 (67/50) > armReach * 0.98 := by
    rw [armReach_val]
    exact not_lt.mpr hdle
  have hg3 : ¬ikWristDist (3/2) 0 (67/50) < 0.02 := not_lt.mpr hdge
  have hθ : ikAngleToWrist (3/2) 0 (67/50) = π / 4 := by
    rw [ikAngleToWrist, hR, hH]
    unfold atan2
    rw [if_pos (by norm_num : (0:ℝ) < 3/2)]
    rw [show (3/2 : ℝ) / (3/2) = 1 by norm_num, Real.arctan_one]
  have hsqrt92 : Real.sqrt (9/2) / 3 = √2 / 2 := by
    have h9 : Real.sqrt (9/2) = 3 * Real.sqrt 2 / 2 := by
      rw [show (9/2:ℝ) = (3 * Real.sqrt 2 / 2)^2 by
        rw [div_pow, mul_pow, Real.sq_sqrt (by norm_num : (0:ℝ) ≤ 2)]
        norm_num]
      exact Real.sqrt_sq (by positivity)
    rw [h9]
    ring
  have hα : ikAlpha (3/2) 0 (67/50) = π / 4 := by
    unfold ikAlpha
    rw [ikCosAlpha_eq (armReach_val ▸ hdle) hdge, hdval, hsqrt92]
    exact arccos_sqrt_two_div_two
  have hE : ikElbowInternalAngle (3/2) 0 (67/50) = π / 2 := by
    unfold ikElbowInternalAngle
    rw [ikCosElbow_eq (armReach_val ▸ hdle) hdge, hdval, hdd]
    norm_num [Real.arccos_zero]
  have hsD : ikShoulderDown (3/2) 0 (67/50) = π / 2 := by
    unfold ikShoulderDown
    rw [hθ, hα]
    ring
  have hwD : ikWristDown (3/2) 0 (67/50) = π := by
    unfold ikWristDown ikShoulderDown ikElbowDown
    rw [hθ, hα, hE]
    ring
  have hsU : ikShoulderUp (3/2) 0 (67/50) = 0 := by
    unfold ikShoulderUp
    rw [hθ, hα]
    ring
  have heU : ikElbowUp (3/2) 0 (67/50) = π / 2 := by
    unfold ikElbowUp
    rw [hE]
    ring
  have hwU : ikWristUp (3/2) 0 (67/50) = π / 2 := by
    unfold ikWristUp ikShoulderUp ikElbowUp
    rw [hθ, hα, hE]
    ring
  have hwmax : degToRad wristLimits.max = π / 2 := by
    simp only [wristLimits]
    unfold degToRad
    ring
  have hwmin : degToRad wristLimits.min = -(π / 2) := by
    simp only [wristLimits]
    unfold degToRad
    ring
  have hsmax : degToRad shoulderLimits.max = π / 2 := by
    simp only [shoulderLimits]
    unfold degToRad
    ring
  have hsmin : degToRad shoulderLimits.min = -(π / 2) := by
    simp only [shoulderLimits]
    unfold degToRad
    ring
  have hemax : degToRad elbowLimits.max = 3 * π / 4 := by
    simp only [elbowLimits]
    unfold degToRad
    ring
  have hemin : degToRad elbowLimits.min = -(3 * π / 4) := by
    simp only [elbowLimits]
    unfold degToRad
    ring
  have hdown : ¬ikDownValid (3/2) 0 (67/50) := by
    intro h
    have hw := h.2.2.2.2.2
    rw [hwmax, hwD] at hw
    linarith
  have hup : ikUpValid (3/2) 0 (67/50) := by
    refine ⟨?_, ?_, ?_, ?_, ?_, ?_⟩
    · rw [hsU, hsmin]; linarith
    · rw [hsU, hsmax]; linarith
    · rw [heU, hemin]; linarith
    · rw [heU, hemax]; linarith
    · rw [hwU, hwmin]; linarith
    · rw [hwU, hwmax]
  have hbase : ikBaseAngle (3/2) 0 = π := by
    unfold ikBaseAngle atan2
    rw [if_pos (by norm_num : (0:ℝ) < 3/2)]
    rw [show (0 : ℝ) / (3/2) = 0 by norm_num, Real.arctan_zero, sub_zero]
    exact wrapToPi_of_mem (by linarith) le_rfl
  have hg1 : ¬((67:ℝ)/50 < 0) := by norm_num
  have h180 : radToDeg π = 180 := by
    unfold radToDeg
    field_simp
  have h90 : radToDeg (π / 2) = 90 := by
    unfold radToDeg
    field_simp
    ring
  have h0 : radToDeg 0 = 0 := by
    unfold radToDeg
    norm_num
  unfold solveIK
  rw [if_neg hg1, if_neg hg2, if_neg hg3, if_neg hdown, if_pos hup]
  show IKResult.success
      { base := radToDeg (ikBaseAngle (3/2) 0)
        shoulder := radToDeg (ikShoulderUp (3/2) 0 (67/50))
        elbow := radToDeg (ikElbowUp (3/2) 0 (67/50))
        wrist := radToDeg (ikWristUp (3/2) 0 (67/50)) } = _
  rw [hbase, hsU, heU, hwU, h180, h90, h0]

/-- Witness for **C2** at the concrete world target `(1.5, 0, 1.34)`:
`solveIK` returns base 180°, shoulder 0°, elbow 90°, wrist 90°, and forward
kinematics lands exactly on the target with the angles summing to π. -/
theorem solveIK_roundtrip_witness :
    fkEndEffector (degToRad (180:ℝ)) (degToRad 0) (degToRad 90) (degToRad 90)
        = ⟨3/2, 0, 67/50⟩ ∧
    degToRad (0:ℝ) + degToRad 90 + degToRad 90 = π :=
  solveIK_roundtrip (3/2) 0 (67/50) ⟨180, 0, 90, 90⟩ solveIK_at_15_0_134

end IKConcrete

section Claim3

open Real

lemma arccos_le_arccos {x y : ℝ} (h : x ≤ y) :
    Real.arccos y ≤ Real.arccos x := by
  simp only [Real.arccos_eq_pi_div_two_sub_arcsin]
  have := Real.monotone_arcsin h
  linarith

lemma arccos_one_half : Real.arccos (1/2) = π / 3 := by
  rw [show (1/2 : ℝ) = Real.cos (π/3) by rw [Real.cos_pi_div_three]]
  exact Real.arccos_cos (by linarith [pi_pos]) (by linarith [pi_pos])

lemma configValid_degrees {s e w : ℝ} (h : configValid s e w) :
    shoulderLimits.min ≤ radToDeg s ∧ radToDeg s ≤ shoulderLimits.max ∧
    elbowLimits.min ≤ radToDeg e ∧ radToDeg e ≤ elbowLimits.max ∧
    wristLimits.min ≤ radToDeg w ∧ radToDeg w ≤ wristLimits.max := by
  obtain ⟨h1, h2, h3, h4, h5, h6⟩ := h
  refine ⟨?_, ?_, ?_, ?_, ?_, ?_⟩
  · have := radToDeg_mono h1; rwa [radToDeg_degToRad] at this
  · have := radToDeg_mono h2; rwa [radToDeg_degToRad] at this
  · have := radToDeg_mono h3; rwa [radToDeg_degToRad] at this
  · have := radToDeg_mono h4; rwa [radToDeg_degToRad] at this
  · have := radToDeg_mono h5; rwa [radToDeg_degToRad] at this
  · have := radToDeg_mono h6; rwa [radToDeg_degToRad] at this

/-- Concrete evaluation: the `goto 0 200 50` target — world `(0, 2, 0.5)` —
succeeds with base angle 90° and in-limit shoulder/elbow/wrist. -/
lemma solveIK_at_0_2_05 :
    ∃ s e w : ℝ,
      solveIK 0 2 (1/2) = .success ⟨90, s, e, w⟩ ∧
      shoulderLimits.min ≤ s ∧ s ≤ shoulderLimits.max ∧
      elbowLimits.min ≤ e ∧ e ≤ elbowLimits.max ∧
      wristLimits.min ≤ w ∧ w ≤ wristLimits.max := by
  have hπ : (0:ℝ) < π := pi_pos
  have hR : ikR 0 2 = 2 := by
    rw [ikR, show (0 * 0 + 2 * 2 : ℝ) = 2 * 2 by norm_num,
      Real.sqrt_mul_self (by norm_num)]
  have hH : ikWristH (1/2) = 33/50 := by
    norm_num [ikWristH, ikShoulderHeight, ikL3, baseHeight, wristLength,
      gripperLength]
  have hdd : ikWristDist 0 2 (1/2) * ikWristDist 0 2 (1/2) = 11089/2500 := by
    rw [ikWristDist_sq, hR, hH]
    norm_num
  have hdle : ikWristDist 0 2 (1/2) ≤ 2.94 := by
    rw [ikWristDist, hR, hH]
    exact sqrt_le_of_sq_le (by norm_num) (by norm_num)
  have hdge : (0.02 : ℝ) ≤ ikWristDist 0 2 (1/2) := by
    rw [ikWristDist, hR, hH, Real.le_sqrt (by norm_num) (by norm_num)]
    norm_num
  have hd32 : (3/2 : ℝ) ≤ ikWristDist 0 2 (1/2) := by
    rw [ikWristDist, hR, hH, Real.le_sqrt (by norm_num) (by norm_num)]
    norm_num
  have hg1 : ¬((1:ℝ)/2 < 0) := by norm_num
  have hg2 : ¬ikWristDist 0 2 (1/2) > armReach * 0.98 := by
    rw [armReach_val]
    exact not_lt.mpr hdle
  have hg3 : ¬ikWristDist 0 2 (1/2) < 0.02 := not_lt.mpr hdge
  have hbase : ikBaseAngle 0 2 = π / 2 := by
    unfold ikBaseAngle atan2
    rw [if_neg (lt_irrefl (0:ℝ)), if_neg (lt_irrefl (0:ℝ)),
      if_pos (by norm_num : (0:ℝ) < 2),
      show π - π/2 = π/2 by ring]
    exact wrapToPi_of_mem (by linarith) (by linarith)
  have h90 : radToDeg (π/2) = 90 := by
    unfold radToDeg
    field_simp
    ring
  -- the elbow-up candidate is valid
  have hθval : ikAngleToWrist 0 2 (1/2) = Real.arctan (100/33) := by
    rw [ikAngleToWrist, hR, hH]
    unfold atan2
    rw [if_pos (by norm_num : (0:ℝ) < 33/50),
      show (2:ℝ) / (33/50) = 100/33 by norm_num]
  have hθ0 : 0 ≤ ikAngleToWrist 0 2 (1/2) := by
    rw [hθval]
    have := Real.arctan_strictMono.monotone (by norm_num : (0:ℝ) ≤ 100/33)
    rwa [Real.arctan_zero] at this
  have hθhalf : ikAngleToWrist 0 2 (1/2) < π / 2 := by
    rw [hθval]
    exact Real.arctan_lt_pi_div_two _
  have hθ3 : π / 3 ≤ ikAngleToWrist 0 2 (1/2) := by
    rw [hθval]
    have htan3 : Real.tan (π/3) = √3 := by
      rw [Real.tan_eq_sin_div_cos, Real.sin_pi_div_three,
        Real.cos_pi_div_three]
      ring
    have hπ3 : π/3 = Real.arctan (√3) := by
      rw [← htan3, Real.arctan_tan (by linarith) (by linarith)]
    rw [hπ3]
    exact Real.arctan_strictMono.monotone
      (sqrt_le_of_sq_le (by norm_num) (by norm_num))
  have hαdef : ikAlpha 0 2 (1/2)
      = Real.arccos (ikWristDist 0 2 (1/2) / 3) := by
    unfold ikAlpha
    rw [ikCosAlpha_eq (armReach_val ▸ hdle) hdge]
  have hα0 : 0 ≤ ikAlpha 0 2 (1/2) := Real.arccos_nonneg _
  have hαhalf : ikAlpha 0 2 (1/2) ≤ π / 2 := by
    rw [hαdef]
    exact Real.arccos_le_pi_div_two.mpr (by
      have := ikWristDist_nonneg 0 2 (1/2)
      linarith)
  have hα3 : ikAlpha 0 2 (1/2) ≤ π / 3 := by
    rw [hαdef, ← arccos_one_half]
    exact arccos_le_arccos (by linarith)
  have hcosE : ikCosElbowInternal 0 2 (1/2) = 161/11250 := by
    rw [ikCosElbow_eq (armReach_val ▸ hdle) hdge, hdd]
    norm_num
  have hE0 : 0 ≤ ikElbowInternalAngle 0 2 (1/2) := Real.arccos_nonneg _
  have hEpi : ikElbowInternalAngle 0 2 (1/2) ≤ π := Real.arccos_le_pi _
  have hEhalf : ikElbowInternalAngle 0 2 (1/2) ≤ π / 2 := by
    unfold ikElbowInternalAngle
    rw [hcosE]
    exact Real.arccos_le_pi_div_two.mpr (by norm_num)
  have hE4 : π / 4 ≤ ikElbowInternalAngle 0 2 (1/2) := by
    unfold ikElbowInternalAngle
    rw [hcosE]
    by_contra hcon
    push_neg at hcon
    have := Real.arccos_le_pi_div_four.mp (le_of_lt hcon)
    have h12 : (1:ℝ) ≤ √2 := by
      rw [Real.le_sqrt (by norm_num) (by norm_num)]
      norm_num
    linarith
  have hsmin' : degToRad shoulderLimits.min = -(π / 2) := by
    simp only [shoulderLimits]
    unfold degToRad
    ring
  have hsmax' : degToRad shoulderLimits.max = π / 2 := by
    simp only [shoulderLimits]
    unfold degToRad
    ring
  have hemin' : degToRad elbowLimits.min = -(3 * π / 4) := by
    simp only [elbowLimits]
    unfold degToRad
    ring
  have hemax' : degToRad elbowLimits.max = 3 * π / 4 := by
    simp only [elbowLimits]
    unfold degToRad
    ring
  have hwmin' : degToRad wristLimits.min = -(π / 2) := by
    simp only [wristLimits]
    unfold degToRad
    ring
  have hwmax' : degToRad wristLimits.max = π / 2 := by
    simp only [wristLimits]
    unfold degToRad
    ring
  have hup : ikUpValid 0 2 (1/2) := by
    refine ⟨?_, ?_, ?_, ?_, ?_, ?_⟩
    · unfold ikShoulderUp
      rw [hsmin']
      linarith
    · unfold ikShoulderUp
      rw [hsmax']
      linarith
    · unfold ikElbowUp
      rw [hemin']
      linarith
    · unfold ikElbowUp
      rw [hemax']
      linarith
    · unfold ikWristUp ikShoulderUp ikElbowUp
      rw [hwmin']
      linarith
    · unfold ikWristUp ikShoulderUp ikElbowUp
      rw [hwmax']
      linarith
  by_cases hdv : ikDownValid 0 2 (1/2)
  · refine ⟨radToDeg (ikShoulderDown 0 2 (1/2)),
      radToDeg (ikElbowDown 0 2 (1/2)), radToDeg (ikWristDown 0 2 (1/2)),
      ?_, ?_, ?_, ?_, ?_, ?_, ?_⟩
    · unfold solveIK
      rw [if_neg hg1, if_neg hg2, if_neg hg3, if_pos hdv]
      show IKResult.success
          { base := radToDeg (ikBaseAngle 0 2)
            shoulder := radToDeg (ikShoulderDown 0 2 (1/2))
            elbow := radToDeg (ikElbowDown 0 2 (1/2))
            wrist := radToDeg (ikWristDown 0 2 (1/2)) } = _
      rw [hbase, h90]
    all_goals
      have hb := configValid_degrees hdv
    · exact hb.1
    · exact hb.2.1
    · exact hb.2.2.1
    · exact hb.2.2.2.1
    · exact hb.2.2.2.2.1
    · exact hb.2.2.2.2.2
  · refine ⟨radToDeg (ikShoulderUp 0 2 (1/2)),
      radToDeg (ikElbowUp 0 2 (1/2)), radToDeg (ikWristUp 0 2 (1/2)),
      ?_, ?_, ?_, ?_, ?_, ?_, ?_⟩
    · unfold solveIK
      rw [if_neg hg1, if_neg hg2, if_neg hg3, if_neg hdv, if_pos hup]
      show IKResult.success
          { base := radToDeg (ikBaseAngle 0 2)
            shoulder := radToDeg (ikShoulderUp 0 2 (1/2))
            elbow := radToDeg (ikElbowUp 0 2 (1/2))
            wrist := radToDeg (ikWristUp 0 2 (1/2)) } = _
      rw [hbase, h90]
    all_goals
      have hb := configValid_degrees hup
    · exact hb.1
    · exact hb.2.1
    · exact hb.2.2.1
    · exact hb.2.2.2.1
    · exact hb.2.2.2.2.1
    · exact hb.2.2.2.2.2

/-- **C3 (amended).** `solveIK` at the `goto 0 200 50` target (cm, so world
`(0, 2, 0.5)` under the fixed 100-units-per-meter scale) succeeds with a base
angle of **90°** — not 180° — and shoulder/elbow/wrist within their static
limits; `solveIK` at `goto 0 500 50` (world `(0, 5, 0.5)`) fails with the
too-far error because the wrist point exceeds 98% of the two-link reach. -/
theorem solveIK_concrete_scenarios :
    (∃ s e w : ℝ,
      solveIK 0 2 (1/2) = .success ⟨90, s, e, w⟩ ∧
      shoulderLimits.min ≤ s ∧ s ≤ shoulderLimits.max ∧
      elbowLimits.min ≤ e ∧ e ≤ elbowLimits.max ∧
      wristLimits.min ≤ w ∧ w ≤ wristLimits.max) ∧
    solveIK 0 5 (1/2) = .failure .tooFar := by
  refine ⟨solveIK_at_0_2_05, ?_⟩
  have hR : ikR 0 5 = 5 := by
    rw [ikR, show (0 * 0 + 5 * 5 : ℝ) = 5 * 5 by norm_num,
      Real.sqrt_mul_self (by norm_num)]
  have hH : ikWristH (1/2) = 33/50 := by
    norm_num [ikWristH, ikShoulderHeight, ikL3, baseHeight, wristLength,
      gripperLength]
  have hfar : ikWristDist 0 5 (1/2) > armReach * 0.98 := by
    rw [armReach_val, ikWristDist, hR, hH]
    show (2.94 : ℝ) < Real.sqrt (5 * 5 + 33/50 * (33/50))
    rw [Real.lt_sqrt (by norm_num)]
    norm_num
  unfold solveIK
  rw [if_neg (by norm_num : ¬((1:ℝ)/2 < 0)), if_pos hfar]

/-- **C3, counterexample.** The claim says `solveIK(0, 200, 50)` returns a
base angle of 180°; it actually returns 90°. -/
theorem solveIK_0_200_50_base_not_180 :
    (solveIK 0 2 (1/2)).baseAngle? ≠ some 180 := by
  obtain ⟨s, e, w, hs, -⟩ := solveIK_at_0_2_05
  rw [hs]
  intro hcontra
  simp only [IKResult.baseAngle?, Option.some.injEq] at hcontra
  norm_num at hcontra

end Claim3

/-! ## Physics objects, AABB collision and the arm/object layer
(app.js:86–128, 1116–1240, 1244–1290, 1407–1628, 1810–2099) -/

noncomputable section PhysicsDefs

open Real

/-- Componentwise vector sum (`THREE.Vector3.add`). -/
def Vec3.add (a b : Vec3) : Vec3 := ⟨a.x + b.x, a.y + b.y, a.z + b.z⟩

/-- Componentwise difference (`THREE.Vector3.sub`). -/
def Vec3.sub (a b : Vec3) : Vec3 := ⟨a.x - b.x, a.y - b.y, a.z - b.z⟩

/-- Scalar multiple (`THREE.Vector3.multiplyScalar`). -/
def Vec3.smul (c : ℝ) (a : Vec3) : Vec3 := ⟨c * a.x, c * a.y, c * a.z⟩

/-- `THREE.Vector3.lengthSq`. -/
def Vec3.lengthSq (a : Vec3) : ℝ := a.x * a.x + a.y * a.y + a.z * a.z

/-- `THREE.Vector3.length`. -/
def Vec3.length (a : Vec3) : ℝ := Real.sqrt a.lengthSq

/-- `THREE.Vector3.normalize` (divide by the length). -/
def Vec3.normalize (a : Vec3) : Vec3 := Vec3.smul (1 / a.length) a

/-- `THREE.Vector3.dot`. -/
def Vec3.dot (a b : Vec3) : ℝ := a.x * b.x + a.y * b.y + a.z * b.z

/-- An axis-aligned box (`THREE.Box3`: min/max corners). -/
structure Box3 where
  min : Vec3
  max : Vec3

/-- `Box3.getCenter`. -/
def Box3.center (b : Box3) : Vec3 :=
  ⟨(b.min.x + b.max.x) / 2, (b.min.y + b.max.y) / 2, (b.min.z + b.max.z) / 2⟩

/-- `Box3.getSize`. -/
def Box3.size (b : Box3) : Vec3 :=
  ⟨b.max.x - b.min.x, b.max.y - b.min.y, b.max.z - b.min.z⟩

/-- `Box3.intersectsBox` (closed-interval overlap on all three axes). -/
def Box3.intersects (a b : Box3) : Prop :=
  a.min.x ≤ b.max.x ∧ b.min.x ≤ a.max.x ∧
  a.min.y ≤ b.max.y ∧ b.min.y ≤ a.max.y ∧
  a.min.z ≤ b.max.z ∧ b.min.z ≤ a.max.z

instance (a b : Box3) : Decidable (Box3.intersects a b) := by
  unfold Box3.intersects
  infer_instance

/-- The minimum-translation-vector record returned by
`computeAABBSeparation`. -/
structure Separation where
  axis : Vec3
  depth : ℝ

/-- `computeAABBSeparation(boxA, boxB)` (app.js:1116–1154): overlap per axis
from centers and sizes; `null` when some overlap is ≤ 0; otherwise the
smallest-overlap axis, signed from A toward B. -/
def computeAABBSeparation (boxA boxB : Box3) : Option Separation :=
  let diff := Vec3.sub boxB.center boxA.center
  let overlapX := (boxA.size.x + boxB.size.x) / 2 - |diff.x|
  let overlapY := (boxA.size.y + boxB.size.y) / 2 - |diff.y|
  let overlapZ := (boxA.size.z + boxB.size.z) / 2 - |diff.z|
  if overlapX ≤ 0 ∨ overlapY ≤ 0 ∨ overlapZ ≤ 0 then none
  else if overlapX ≤ overlapY ∧ overlapX ≤ overlapZ then
    some ⟨⟨if diff.x > 0 then 1 else -1, 0, 0⟩, overlapX⟩
  else if overlapY ≤ overlapX ∧ overlapY ≤ overlapZ then
    some ⟨⟨0, if diff.y > 0 then 1 else -1, 0⟩, overlapY⟩
  else
    some ⟨⟨0, 0, if diff.z > 0 then 1 else -1⟩, overlapZ⟩

/-- The collision record of `checkMeshObjectCollision`: penetration depth and
separation axis (`pushDirection` is a clone of `separationAxis`; the contact
point is not used by the claims). -/
structure MeshCollision where
  penetration : ℝ
  separationAxis : Vec3

/-- `checkMeshObjectCollision(meshes, objMesh)` (app.js:1158–1218, default
tolerance 0): scans the mesh boxes in order and keeps the collision with the
strictly largest penetration (`maxPenetration` starts at 0). -/
def checkMeshObjectCollision (meshBoxes : List Box3) (objBox : Box3) :
    Option MeshCollision :=
  meshBoxes.foldl
    (fun best meshBox =>
      if Box3.intersects meshBox objBox then
        match computeAABBSeparation meshBox objBox with
        | some sep =>
            if sep.depth > (match best with
                | some b => b.penetration
                | none => 0) then
              some ⟨sep.depth, sep.axis⟩
            else best
        | none => best
      else best)
    none

/-- `PhysicsObject` (app.js:94–111): position/velocity/size and the grip
linkage. The mesh and its orientation live in the excluded rendering layer;
`grippedRotation` holds the captured relative-orientation slot (abstracted to
a rotation function), which the claims only test for presence. -/
structure PhysObj where
  position : Vec3
  velocity : Vec3
  size : Vec3
  isGripped : Bool
  grippedOffset : Option Vec3
  grippedRotation : Option (Vec3 → Vec3)

/-- `PhysicsObject.getRadius()` (app.js:105). -/
def PhysObj.getRadius (o : PhysObj) : ℝ := max o.size.x o.size.z / 2

/-- `PhysicsObject.getHalfHeight()` (app.js:109). -/
def PhysObj.getHalfHeight (o : PhysObj) : ℝ := o.size.y / 2

/-- World bounding box of an object's mesh
(`new THREE.Box3().setFromObject(obj.mesh)` for the axis-aligned mesh):
centred at the object position with the object's size. -/
def objBox (o : PhysObj) : Box3 :=
  ⟨⟨o.position.x - o.size.x / 2, o.position.y - o.size.y / 2,
    o.position.z - o.size.z / 2⟩,
   ⟨o.position.x + o.size.x / 2, o.position.y + o.size.y / 2,
    o.position.z + o.size.z / 2⟩⟩

/-- Segment-geometry contact record of `checkArmObjectCollision`
(app.js:1329–1405). -/
structure SegContact where
  point : Vec3
  penetration : ℝ
  isGripperSegment : Bool

/-- The scene-graph-dependent inputs of the arm/object layer: world boxes of
the gripper-finger meshes (`gripperMeshes.left/right`), world boxes of the
remaining arm meshes (`robotArmMeshes` after the name filter of
app.js:1256–1262), the segment-geometry contact query
(`checkArmObjectCollision`), the gripper-zone test (`isObjectInGripZone`,
app.js:1745–1808, a pure function of the gripper world transform and
openness), and the `Math.random()` stream of the push jitter (a pair per
object visit). -/
structure ArmGeom where
  leftFingerBoxes : List Box3
  rightFingerBoxes : List Box3
  armBoxes : List Box3
  segContact : PhysObj → Option SegContact
  inGripZone : PhysObj → Bool
  rand : ℕ → ℝ × ℝ

/-- The record returned by `checkGripperMeshCollision` (app.js:1221–1240):
its `collision`/`leftContact`/`bothContact`/penetration fields are derived
from the two per-finger collisions. -/
structure GripperCol where
  leftCollision : Option MeshCollision
  rightCollision : Option MeshCollision

/-- `checkGripperMeshCollision(obj)` (app.js:1221). -/
def checkGripperMeshCollision (env : ArmGeom) (o : PhysObj) : GripperCol :=
  ⟨checkMeshObjectCollision env.leftFingerBoxes (objBox o),
   checkMeshObjectCollision env.rightFingerBoxes (objBox o)⟩

/-- `checkArmMeshCollision(obj)` (app.js:1244), over the filtered arm
boxes. -/
def checkArmMeshCollision (env : ArmGeom) (o : PhysObj) : Option MeshCollision :=
  checkMeshObjectCollision env.armBoxes (objBox o)

/-- The floor test of the collision layer
(`objPos.y <= halfHeight + floorTolerance`, tolerance 0.03,
app.js:1433–1434, 1508–1509). -/
def objOnFloor (o : PhysObj) : Prop :=
  o.position.y ≤ o.getHalfHeight + 0.03

instance (o : PhysObj) : Decidable (objOnFloor o) := by
  unfold objOnFloor
  infer_instance

/-- A contact blocks when present with separation axis pointing ≥95%
straight down and penetration above the 0.02 threshold
(app.js:1448–1464, 1470–1486). -/
def blockingContact (c : Option MeshCollision) : Prop :=
  ∃ mc, c = some mc ∧ mc.separationAxis.y < -0.95 ∧ mc.penetration > 0.02

instance (c : Option MeshCollision) : Decidable (blockingContact c) := by
  unfold blockingContact
  cases c with
  | none => exact isFalse (by rintro ⟨mc, h, -⟩; simp at h)
  | some mc =>
      have : Decidable (mc.separationAxis.y < -0.95 ∧ mc.penetration > 0.02) :=
        inferInstance
      cases this with
      | isTrue h => exact isTrue ⟨mc, rfl, h⟩
      | isFalse h =>
          exact isFalse (by
            rintro ⟨mc', heq, h1, h2⟩
            obtain rfl : mc = mc' := Option.some.inj heq
            exact h ⟨h1, h2⟩)

/-- `checkArmCollisionWithBlockedObject()` (app.js:1417–1490): the first
on-floor, non-gripped, non-grip-zone object whose gripper-finger or arm-mesh
contact has a ≥95%-downward separation axis with penetration above the
threshold. -/
def checkArmCollisionWithBlockedObject (env : ArmGeom) (objs : List PhysObj) :
    Option PhysObj :=
  objs.findSome? fun obj =>
    if obj.isGripped then none
    else if ¬objOnFloor obj then none
    else if env.inGripZone obj then none
    else
      let gripperCol := checkGripperMeshCollision env obj
      if blockingContact gripperCol.leftCollision ∨
          blockingContact gripperCol.rightCollision then some obj
      else if blockingContact (checkArmMeshCollision env obj) then some obj
      else none

end PhysicsDefs

noncomputable section PhysicsStep

open Real

/-- The world transform of the gripper published by the scene graph:
`getGripperCenter()` plus the gripper world quaternion (as a rotation
function) and its inverse. -/
structure GripperPose where
  center : Vec3
  rot : Vec3 → Vec3
  rotInv : Vec3 → Vec3

/-- `updateGrippedObjectPosition(obj)` (app.js:1866–1880): a gripped object
with a stored offset rides at `gripperCenter + rot(offset)`; otherwise a
no-op. (The orientation update touches only the mesh quaternion.) -/
def updateGrippedObjectPosition (pose : GripperPose) (obj : PhysObj) : PhysObj :=
  if obj.isGripped then
    match obj.grippedOffset with
    | some off => { obj with position := Vec3.add pose.center (pose.rot off) }
    | none => obj
  else obj

/-- `addPushForce(direction, penetration, source)` (app.js:1518–1540): skip
sub-millimetre penetrations, zero a downward component for on-floor objects,
drop near-zero directions, otherwise record the normalized direction with
its penetration weight. -/
def addPushForce (onFloor : Prop) [Decidable onFloor]
    (direction : Vec3) (penetration : ℝ) : Option (Vec3 × ℝ) :=
  if penetration < 0.001 then none
  else
    let dir := if onFloor ∧ direction.y < 0 then
        { direction with y := 0 } else direction
    if dir.lengthSq > 0.0001 then some (dir.normalize, penetration) else none

/-- The trailing "Keep object above floor" step of the push loop
(app.js:1621–1625): clamp the position to the half-height and zero a
downward vertical velocity. -/
def clampAboveFloor (halfHeight : ℝ) (obj : PhysObj) : PhysObj :=
  if obj.position.y < halfHeight then
    { obj with
      position := { obj.position with y := halfHeight }
      velocity := if obj.velocity.y < 0 then
          { obj.velocity with y := 0 } else obj.velocity }
  else obj

/-- The per-object body of `pushObjectsFromArm` (app.js:1501–1627):
accumulate gripper-finger, arm-mesh and arm-segment pushes, combine them
weighted by penetration, apply the position correction, velocity impulse and
random jitter, and keep the object above the floor. -/
def pushOne (env : ArmGeom) (rand : ℝ × ℝ) (obj : PhysObj) : PhysObj :=
  if obj.isGripped then obj
  else
    let halfHeight := obj.getHalfHeight
    let onFloor := objOnFloor obj
    let inGrip := env.inGripZone obj
    let gripperCol := checkGripperMeshCollision env obj
    let gripperForces : List (Vec3 × ℝ) :=
      if gripperCol.leftCollision.isSome ∨ gripperCol.rightCollision.isSome then
        if inGrip ∧ gripperCol.leftCollision.isSome ∧
            gripperCol.rightCollision.isSome then []
        else
          (match gripperCol.leftCollision with
            | some c => (addPushForce onFloor c.separationAxis c.penetration).toList
            | none => []) ++
          (match gripperCol.rightCollision with
            | some c => (addPushForce onFloor c.separationAxis c.penetration).toList
            | none => [])
      else []
    let armForces : List (Vec3 × ℝ) :=
      match checkArmMeshCollision env obj with
      | some c => (addPushForce onFloor c.separationAxis c.penetration).toList
      | none => []
    let segForces : List (Vec3 × ℝ) :=
      match env.segContact obj with
      | some sc =>
          if sc.isGripperSegment ∧ inGrip then []
          else (addPushForce onFloor (Vec3.sub obj.position sc.point)
            sc.penetration).toList
      | none => []
    let pushForces := gripperForces ++ armForces ++ segForces
    if pushForces.isEmpty then obj
    else
      let combined := pushForces.foldl
        (fun acc f => Vec3.add acc (Vec3.smul f.2 f.1)) ⟨0, 0, 0⟩
      let totalWeight := pushForces.foldl (fun acc f => acc + f.2) (0:ℝ)
      let maxPenetration := pushForces.foldl (fun acc f => max acc f.2) (0:ℝ)
      let obj1 :=
        if totalWeight > 0 ∧ combined.lengthSq > 0.0001 then
          let dirN := combined.normalize
          let separationStrength := max (maxPenetration * 4.0) 0.02
          let impulseStrength := min (maxPenetration * 20) 5.0
          let p1 := Vec3.add obj.position (Vec3.smul separationStrength dirN)
          let v1 := Vec3.add obj.velocity (Vec3.smul impulseStrength dirN)
          let v2 := if maxPenetration > 0.005 then
              ⟨v1.x + (rand.1 - 0.5) * 0.2, v1.y, v1.z + (rand.2 - 0.5) * 0.2⟩
            else v1
          { obj with position := p1, velocity := v2 }
        else obj
      clampAboveFloor halfHeight obj1

/-- `pushObjectsFromArm()` (app.js:1501): the per-object loop, threading the
`Math.random()` stream by object index. -/
def pushObjectsFromArm (env : ArmGeom) : ℕ → List PhysObj → List PhysObj
  | _, [] => []
  | i, o :: rest => pushOne env (env.rand i) o :: pushObjectsFromArm env (i + 1) rest

/-- The per-object integration sub-step of `updatePhysics`
(app.js:2029–2087) for a non-gripped object: gravity, quadratic drag, linear
damping, semi-implicit Euler, floor bounce/rest friction, velocity snap and
clamp. -/
def integrateOne (dt : ℝ) (obj : PhysObj) : PhysObj :=
  let halfHeight := obj.getHalfHeight
  let v1 : Vec3 := { obj.velocity with y := obj.velocity.y - 9.8 * dt }
  let speed := v1.length
  let v2 := if speed > 0.01 then
      let dragDecel := 0.5 * speed * dt
      let dragFactor := max 0.9 (1 - dragDecel / speed)
      Vec3.smul dragFactor v1
    else v1
  let v3 := Vec3.smul 0.995 v2
  let p1 : Vec3 := ⟨obj.position.x + v3.x * dt, obj.position.y + v3.y * dt,
    obj.position.z + v3.z * dt⟩
  let pv : Vec3 × Vec3 :=
    if p1.y < halfHeight then
      let p2 : Vec3 := { p1 with y := halfHeight }
      let impactVelocity := v3.y
      if impactVelocity < -0.1 then
        let impactFriction := min 0.9 (0.7 + |impactVelocity| * 0.05)
        (p2, ⟨v3.x * impactFriction, -impactVelocity * 0.2,
          v3.z * impactFriction⟩)
      else
        let frictionFactor := Real.exp (-(6.0) * dt)
        (p2, ⟨v3.x * frictionFactor, 0, v3.z * frictionFactor⟩)
    else (p1, v3)
  let v4 := pv.2
  let v5 : Vec3 := ⟨if |v4.x| < 0.002 then 0 else v4.x,
    if |v4.y| < 0.002 then 0 else v4.y,
    if |v4.z| < 0.002 then 0 else v4.z⟩
  let v6 := if v5.length > 10.0 then Vec3.smul 10.0 v5.normalize else v5
  { obj with position := pv.1, velocity := v6 }

/-- One `(i, j)` pair of `resolveObjectCollisions` (app.js:1896–2001):
MTV-based position correction split by floor constraints and contact
orientation, floor clamping, and (on the first iteration only) velocity
impulse plus stacking friction. -/
def resolvePair (iter : ℕ) (objs : List PhysObj) (i j : ℕ) : List PhysObj :=
  match objs.get? i, objs.get? j with
  | some objA, some objB =>
    if objA.isGripped ∨ objB.isGripped then objs
    else
      let boxA := objBox objA
      let boxB := objBox objB
      if ¬Box3.intersects boxA boxB then objs
      else
        match computeAABBSeparation boxA boxB with
        | none => objs
        | some separation =>
          if separation.depth < 0.001 then objs
          else
            let halfHeightA := objA.getHalfHeight
            let halfHeightB := objB.getHalfHeight
            let aOnFloor := objA.position.y ≤ halfHeightA + 0.02
            let bOnFloor := objB.position.y ≤ halfHeightB + 0.02
            let normal := separation.axis
            let penetration := separation.depth
            let correctionMagnitude := max (penetration - 0.001) 0 * 0.3
            let ratios : ℝ × ℝ :=
              if |normal.y| > 0.7 then
                if normal.y > 0 then
                  (if aOnFloor then (0, 1) else (0.2, 0.8))
                else
                  (if bOnFloor then (1, 0) else (0.8, 0.2))
              else
                if aOnFloor ∧ ¬bOnFloor then (0.3, 0.7)
                else if ¬aOnFloor ∧ bOnFloor then (0.7, 0.3)
                else (0.5, 0.5)
            let posA1 := Vec3.add objA.position
              (Vec3.smul (-(correctionMagnitude * ratios.1)) normal)
            let posB1 := Vec3.add objB.position
              (Vec3.smul (correctionMagnitude * ratios.2) normal)
            let posA2 := if posA1.y < halfHeightA then
                { posA1 with y := halfHeightA } else posA1
            let posB2 := if posB1.y < halfHeightB then
                { posB1 with y := halfHeightB } else posB1
            let vels : Vec3 × Vec3 :=
              if iter = 0 then
                let relVel := Vec3.sub objB.velocity objA.velocity
                let velAlongNormal := relVel.dot normal
                let v1 : Vec3 × Vec3 :=
                  if velAlongNormal < 0 then
                    let impulse := -(1 + 0.25) * velAlongNormal
                    (Vec3.add objA.velocity
                      (Vec3.smul (-(impulse * ratios.1)) normal),
                     Vec3.add objB.velocity
                      (Vec3.smul (impulse * ratios.2) normal))
                  else (objA.velocity, objB.velocity)
                if |normal.y| > 0.7 then
                  if posA2.y > posB2.y then
                    let va : Vec3 := ⟨v1.1.x * 0.6,
                      if |v1.1.y| < 0.3 then v1.1.y * 0.3 else v1.1.y,
                      v1.1.z * 0.6⟩
                    (va, v1.2)
                  else
                    let vb : Vec3 := ⟨v1.2.x * 0.6,
                      if |v1.2.y| < 0.3 then v1.2.y * 0.3 else v1.2.y,
                      v1.2.z * 0.6⟩
                    (v1.1, vb)
                else v1
              else (objA.velocity, objB.velocity)
            (objs.set i { objA with position := posA2, velocity := vels.1 }).set
              j { objB with position := posB2, velocity := vels.2 }
  | _, _ => objs

/-- `resolveObjectCollisions()` (app.js:1890–2004): 5 iterations over all
ascending index pairs. -/
def resolveObjectCollisions (objs : List PhysObj) : List PhysObj :=
  (List.range 5).foldl
    (fun acc iter =>
      (List.range acc.length).foldl
        (fun acc2 i =>
          (List.range acc2.length).foldl
            (fun acc3 j => if i < j then resolvePair iter acc3 i j else acc3)
            acc2)
        acc)
    objs

/-- `updatePhysics(deltaTime)` (app.js:2006–2099): capped fixed-size
sub-steps; per sub-step each gripped object rides the gripper and each free
object is integrated, then pairwise resolution runs; finally, when no arm
animation is active, the stationary-arm push pass runs. -/
def updatePhysics (env : ArmGeom) (pose : GripperPose) (isAnimating : Bool)
    (deltaTime : ℝ) (objs : List PhysObj) : List PhysObj :=
  let substeps : ℕ := (⌈deltaTime / 0.02⌉).toNat
  let dt := deltaTime / (substeps : ℝ)
  let objs1 := (List.range substeps).foldl
    (fun acc _ =>
      resolveObjectCollisions
        (acc.map fun obj =>
          if obj.isGripped then updateGrippedObjectPosition pose obj
          else integrateOne dt obj))
    objs
  if ¬isAnimating then pushObjectsFromArm env 0 objs1 else objs1

end PhysicsStep

section Claim8

open Real

/-- The floor invariant for one object: a non-gripped object's centre sits at
least its half-height above the floor (its lowest point has `y ≥ 0`). -/
def FloorOK (o : PhysObj) : Prop :=
  o.isGripped = false → o.getHalfHeight ≤ o.position.y

lemma updateGripped_isGripped (pose : GripperPose) (obj : PhysObj) :
    (updateGrippedObjectPosition pose obj).isGripped = obj.isGripped := by
  unfold updateGrippedObjectPosition
  split_ifs with h
  · cases obj.grippedOffset <;> rfl
  · rfl

lemma integrateOne_isGripped (dt : ℝ) (obj : PhysObj) :
    (integrateOne dt obj).isGripped = obj.isGripped := rfl

lemma integrateOne_floor (dt : ℝ) (obj : PhysObj) :
    (integrateOne dt obj).getHalfHeight ≤ (integrateOne dt obj).position.y := by
  unfold integrateOne PhysObj.getHalfHeight
  dsimp only
  split_ifs <;> first | exact le_refl _ | linarith

lemma clampAboveFloor_isGripped (hh : ℝ) (obj : PhysObj) :
    (clampAboveFloor hh obj).isGripped = obj.isGripped := by
  unfold clampAboveFloor
  split_ifs <;> rfl

lemma clampAboveFloor_size (hh : ℝ) (obj : PhysObj) :
    (clampAboveFloor hh obj).size = obj.size := by
  unfold clampAboveFloor
  split_ifs <;> rfl

lemma clampAboveFloor_y (hh : ℝ) (obj : PhysObj) :
    hh ≤ (clampAboveFloor hh obj).position.y := by
  unfold clampAboveFloor
  split_ifs with h h2
  · simp
  · simp
  · exact le_of_not_lt h

lemma pushOne_preserves (env : ArmGeom) (rand : ℝ × ℝ) (obj : PhysObj)
    (h : FloorOK obj) : FloorOK (pushOne env rand obj) := by
  have key : ∀ o1 : PhysObj, o1.size = obj.size →
      FloorOK (clampAboveFloor obj.getHalfHeight o1) := by
    intro o1 hsz _
    show (clampAboveFloor obj.getHalfHeight o1).getHalfHeight ≤ _
    have h1 : (clampAboveFloor obj.getHalfHeight o1).getHalfHeight
        = obj.getHalfHeight := by
      unfold PhysObj.getHalfHeight
      rw [clampAboveFloor_size, hsz]
    rw [h1]
    exact clampAboveFloor_y _ _
  have main : ∀ (c : Prop) (inst : Decidable c) (e : PhysObj),
      e.size = obj.size →
      FloorOK (if c then obj else clampAboveFloor obj.getHalfHeight e) := by
    intro c inst e hsz
    split_ifs with hc
    · exact h
    · exact key e hsz
  unfold pushOne
  split_ifs with hg
  · exact h
  · dsimp only
    exact main _ _ _ (by split_ifs <;> rfl)

lemma pushObjectsFromArm_preserves (env : ArmGeom) :
    ∀ (i : ℕ) (l : List PhysObj), (∀ o ∈ l, FloorOK o) →
      ∀ o ∈ pushObjectsFromArm env i l, FloorOK o := by
  intro i l
  induction l generalizing i with
  | nil => intro _ o ho; simp [pushObjectsFromArm] at ho
  | cons a rest ih =>
    intro h o ho
    rw [pushObjectsFromArm] at ho
    rcases List.mem_cons.mp ho with rfl | hrest
    · exact pushOne_preserves env _ a (h a (List.mem_cons_self _ _))
    · exact ih (i + 1) (fun o' ho' => h o' (List.mem_cons_of_mem _ ho')) o hrest

lemma floor_clamp_y (p : Vec3) (hh : ℝ) :
    hh ≤ (if p.y < hh then ({ p with y := hh } : Vec3) else p).y := by
  split_ifs with h
  · simp
  · exact le_of_not_lt h

lemma resolvePair_cases (iter : ℕ) (objs : List PhysObj) (i j : ℕ) :
    resolvePair iter objs i j = objs ∨
    ∃ a b, FloorOK a ∧ FloorOK b ∧
      resolvePair iter objs i j = (objs.set i a).set j b := by
  unfold resolvePair
  cases hgi : objs.get? i with
  | none => left; rfl
  | some objA =>
    cases hgj : objs.get? j with
    | none => left; rfl
    | some objB =>
      dsimp only
      by_cases hgrip : objA.isGripped = true ∨ objB.isGripped = true
      · rw [if_pos hgrip]
        left; rfl
      rw [if_neg hgrip]
      by_cases hint : Box3.intersects (objBox objA) (objBox objB)
      · rw [if_neg (not_not_intro hint)]
        cases hsep : computeAABBSeparation (objBox objA) (objBox objB) with
        | none => left; rfl
        | some separation =>
          dsimp only
          by_cases hslop : separation.depth < 0.001
          · rw [if_pos hslop]; left; rfl
          · rw [if_neg hslop]
            right
            refine ⟨_, _, ?_, ?_, rfl⟩
            · intro _
              show PhysObj.getHalfHeight _ ≤ _
              exact floor_clamp_y _ _
            · intro _
              show PhysObj.getHalfHeight _ ≤ _
              exact floor_clamp_y _ _
      · rw [if_pos hint]
        left; rfl

lemma resolvePair_preserves (iter i j : ℕ) {objs : List PhysObj}
    (h : ∀ o ∈ objs, FloorOK o) :
    ∀ o ∈ resolvePair iter objs i j, FloorOK o := by
  rcases resolvePair_cases iter objs i j with heq | ⟨a, b, ha, hb, heq⟩
  · rw [heq]; exact h
  · rw [heq]
    intro o ho
    rcases List.mem_or_eq_of_mem_set ho with ho1 | rfl
    · rcases List.mem_or_eq_of_mem_set ho1 with ho2 | rfl
      · exact h o ho2
      · exact ha
    · exact hb

lemma foldl_preserves {α : Type} (P : List PhysObj → Prop)
    (f : List PhysObj → α → List PhysObj)
    (hf : ∀ acc b, P acc → P (f acc b)) :
    ∀ (l : List α) (acc), P acc → P (l.foldl f acc) := by
  intro l
  induction l with
  | nil => intro acc h; exact h
  | cons x xs ih => intro acc h; exact ih _ (hf _ _ h)

lemma resolveObjectCollisions_preserves {objs : List PhysObj}
    (h : ∀ o ∈ objs, FloorOK o) :
    ∀ o ∈ resolveObjectCollisions objs, FloorOK o := by
  unfold resolveObjectCollisions
  refine foldl_preserves (fun l => ∀ o ∈ l, FloorOK o) _ ?_ _ _ h
  intro acc iter hacc
  refine foldl_preserves (fun l => ∀ o ∈ l, FloorOK o) _ ?_ _ _ hacc
  intro acc2 i hacc2
  refine foldl_preserves (fun l => ∀ o ∈ l, FloorOK o) _ ?_ _ _ hacc2
  intro acc3 j hacc3
  split_ifs with hij
  · exact resolvePair_preserves iter i j hacc3
  · exact hacc3

lemma physSubstep_establishes (pose : GripperPose) (dt : ℝ)
    (acc : List PhysObj) :
    ∀ o ∈ resolveObjectCollisions
        (acc.map fun obj =>
          if obj.isGripped then updateGrippedObjectPosition pose obj
          else integrateOne dt obj),
      FloorOK o := by
  apply resolveObjectCollisions_preserves
  intro o ho
  rw [List.mem_map] at ho
  obtain ⟨a, -, rfl⟩ := ho
  by_cases hg : a.isGripped
  · rw [if_pos hg]
    intro hfalse
    rw [updateGripped_isGripped, hg] at hfalse
    cases hfalse
  · rw [if_neg hg]
    intro _
    exact integrateOne_floor dt a

/-- **C8 (amended).** After a physics tick with positive `deltaTime`, every
**non-gripped** object's centre is at least its half-height above the floor,
i.e. its lowest point has `y ≥ 0` — regardless of the starting state, the
arm geometry, the random stream, and the gripper pose; by induction the same
holds after any number of ticks. The claim's universal "every object" fails
for gripped objects, which ride the gripper even below the floor
(`updatePhysics_gripped_penetrates_floor`). -/
theorem updatePhysics_floor_non_penetration (env : ArmGeom)
    (pose : GripperPose) (isAnimating : Bool) (deltaTime : ℝ)
    (objs : List PhysObj) (hdt : 0 < deltaTime) :
    ∀ o ∈ updatePhysics env pose isAnimating deltaTime objs,
      o.isGripped = false → o.getHalfHeight ≤ o.position.y := by
  have hsub : 1 ≤ (⌈deltaTime / 0.02⌉).toNat := by
    have hpos : (0:ℝ) < deltaTime / 0.02 := by positivity
    have h1 : (0:ℤ) < ⌈deltaTime / 0.02⌉ := Int.ceil_pos.mpr hpos
    omega
  unfold updatePhysics
  dsimp only
  obtain ⟨n, hn⟩ : ∃ n, (⌈deltaTime / 0.02⌉).toNat = n + 1 :=
    ⟨_, (Nat.succ_pred_eq_of_pos hsub).symm⟩
  rw [hn, List.range_succ_eq_map, List.foldl_cons]
  have hall : ∀ o ∈ (List.map Nat.succ (List.range n)).foldl
      (fun acc _ =>
        resolveObjectCollisions
          (acc.map fun obj =>
            if obj.isGripped then updateGrippedObjectPosition pose obj
            else integrateOne (deltaTime / ((n + 1 : ℕ) : ℝ)) obj))
      (resolveObjectCollisions
        (objs.map fun obj =>
          if obj.isGripped then updateGrippedObjectPosition pose obj
          else integrateOne (deltaTime / ((n + 1 : ℕ) : ℝ)) obj)),
      FloorOK o := by
    refine foldl_preserves (fun l => ∀ o ∈ l, FloorOK o) _ ?_ _ _
      (physSubstep_establishes pose _ objs)
    intro acc b _
    exact physSubstep_establishes pose _ acc
  split_ifs with hpush
  · exact hall
  · exact fun o ho => pushObjectsFromArm_preserves env 0 _ hall o ho

/-- A scene with no arm meshes, no segment contacts, no grip zone, and a
fixed random stream: the arm is elsewhere. -/
noncomputable def env0 : ArmGeom :=
  ⟨[], [], [], fun _ => none, fun _ => false, fun _ => (1/2, 1/2)⟩

/-- A gripper pose whose centre sits half a metre **below** the floor plane
(the arm commanded far down), with identity orientation. -/
noncomputable def pose0 : GripperPose := ⟨⟨0, -(1/2), 0⟩, id, id⟩

/-- A 10 cm cube currently held by the gripper at zero offset. -/
noncomputable def grippedCube : PhysObj :=
  ⟨⟨0, 1, 0⟩, ⟨0, 0, 0⟩, ⟨1/10, 1/10, 1/10⟩, true, some ⟨0, 0, 0⟩, some id⟩

/-- A free 10 cm cube one metre above the floor. -/
noncomputable def freeCube : PhysObj :=
  ⟨⟨0, 1, 0⟩, ⟨0, 0, 0⟩, ⟨1/10, 1/10, 1/10⟩, false, none, none⟩

set_option maxHeartbeats 1000000 in
lemma resolveObjectCollisions_singleton (o : PhysObj) :
    resolveObjectCollisions [o] = [o] := by
  unfold resolveObjectCollisions
  rfl

/-- **C8 counterexample.** The floor constraint does **not** hold for every
object: a gripped object rides the gripper wherever it goes, with no floor
clamp, so with the gripper centre half a metre below the floor one physics
tick leaves the held cube's centre at `y = -0.5`, well below its 0.05
half-height. -/
theorem updatePhysics_gripped_penetrates_floor :
    ∃ o ∈ updatePhysics env0 pose0 true (1/50) [grippedCube],
      o.isGripped = true ∧ o.position.y - o.getHalfHeight < 0 := by
  have hsub : (⌈(1/50 : ℝ) / 0.02⌉).toNat = 1 := by
    have h : (1/50 : ℝ) / 0.02 = 1 := by norm_num
    rw [h, Int.ceil_one]
    rfl
  have hresult : updatePhysics env0 pose0 true (1/50) [grippedCube] =
      [{ grippedCube with position := ⟨0 + 0, -(1/2) + 0, 0 + 0⟩ }] := by
    unfold updatePhysics
    dsimp only
    rw [hsub]
    rw [if_neg (not_not_intro rfl)]
    show resolveObjectCollisions
      [{ grippedCube with position := ⟨0 + 0, -(1/2) + 0, 0 + 0⟩ }] = _
    exact resolveObjectCollisions_singleton _
  rw [hresult]
  refine ⟨_, List.mem_singleton_self _, rfl, ?_⟩
  show (-(1/2 : ℝ) + 0) - (1/10 / 2) < 0
  norm_num

/-- Witness: the amended C8 theorem applied to a concrete scene — a free
cube dropped from one metre during a 20 ms tick stays above the floor. -/
theorem updatePhysics_floor_witness :
    (0:ℝ) < 1/50 ∧
    List.Forall
      (fun o => o.isGripped = false → o.getHalfHeight ≤ o.position.y)
      (updatePhysics env0 pose0 true (1/50) [freeCube]) :=
  ⟨by norm_num,
   List.forall_iff_forall_mem.mpr
     (updatePhysics_floor_non_penetration env0 pose0 true (1/50) [freeCube]
       (by norm_num))⟩

end Claim8

section Claim6

open Real

/-- A 10 cm cube resting on the floor at the origin. -/
noncomputable def cube6 : PhysObj :=
  ⟨⟨0, 1/20, 0⟩, ⟨0, 0, 0⟩, ⟨1/10, 1/10, 1/10⟩, false, none, none⟩

/-- A 10 cm finger mesh box hovering directly above the cube, overlapping
its top by 3 cm: the descending gripper. -/
noncomputable def boxAbove : Box3 :=
  ⟨⟨-(1/20), 7/100, -(1/20)⟩, ⟨1/20, 17/100, 1/20⟩⟩

/-- A 10 cm arm mesh box beside the cube, overlapping its +x face by 3 cm:
a purely horizontal approach. -/
noncomputable def boxSide : Box3 :=
  ⟨⟨1/50, 0, -(1/20)⟩, ⟨3/25, 1/10, 1/20⟩⟩

/-- Scene: the descending gripper finger above the cube. -/
noncomputable def envDescend : ArmGeom :=
  ⟨[boxAbove], [], [], fun _ => none, fun _ => false, fun _ => (1/2, 1/2)⟩

/-- Scene: an arm link approaching the cube horizontally. -/
noncomputable def envSide : ArmGeom :=
  ⟨[], [], [boxSide], fun _ => none, fun _ => false, fun _ => (1/2, 1/2)⟩

lemma sep_above : computeAABBSeparation boxAbove (objBox cube6) =
    some ⟨⟨0, -1, 0⟩, 3/100⟩ := by
  unfold computeAABBSeparation boxAbove objBox cube6 Box3.center Box3.size
    Vec3.sub
  norm_num [abs_of_nonneg]

lemma sep_side : computeAABBSeparation boxSide (objBox cube6) =
    some ⟨⟨-1, 0, 0⟩, 3/100⟩ := by
  unfold computeAABBSeparation boxSide objBox cube6 Box3.center Box3.size
    Vec3.sub
  norm_num [abs_of_nonneg]

lemma intersects_above : Box3.intersects boxAbove (objBox cube6) := by
  unfold Box3.intersects boxAbove objBox cube6
  norm_num

lemma intersects_side : Box3.intersects boxSide (objBox cube6) := by
  unfold Box3.intersects boxSide objBox cube6
  norm_num

lemma checkMesh_above : checkMeshObjectCollision [boxAbove] (objBox cube6) =
    some ⟨3/100, ⟨0, -1, 0⟩⟩ := by
  unfold checkMeshObjectCollision
  rw [List.foldl_cons, List.foldl_nil, if_pos intersects_above, sep_above]
  norm_num

lemma checkMesh_side : checkMeshObjectCollision [boxSide] (objBox cube6) =
    some ⟨3/100, ⟨-1, 0, 0⟩⟩ := by
  unfold checkMeshObjectCollision
  rw [List.foldl_cons, List.foldl_nil, if_pos intersects_side, sep_side]
  norm_num

lemma cube6_onFloor : objOnFloor cube6 := by
  unfold objOnFloor cube6 PhysObj.getHalfHeight
  norm_num

lemma check_descend : checkArmCollisionWithBlockedObject envDescend [cube6] =
    some cube6 := by
  unfold checkArmCollisionWithBlockedObject
  simp only [List.findSome?]
  rw [if_neg (by unfold cube6; simp)]
  rw [if_neg (not_not_intro cube6_onFloor)]
  rw [if_neg (by unfold envDescend; simp)]
  have hL : (checkGripperMeshCollision envDescend cube6).leftCollision =
      some ⟨3/100, ⟨0, -1, 0⟩⟩ := checkMesh_above
  rw [if_pos]
  left
  exact ⟨_, hL, by norm_num, by norm_num⟩

lemma check_side : checkArmCollisionWithBlockedObject envSide [cube6] =
    none := by
  unfold checkArmCollisionWithBlockedObject
  simp only [List.findSome?]
  rw [if_neg (by unfold cube6; simp)]
  rw [if_neg (not_not_intro cube6_onFloor)]
  rw [if_neg (by unfold envSide; simp)]
  have hL : (checkGripperMeshCollision envSide cube6).leftCollision = none := rfl
  have hR : (checkGripperMeshCollision envSide cube6).rightCollision = none := rfl
  have hA : checkArmMeshCollision envSide cube6 = some ⟨3/100, ⟨-1, 0, 0⟩⟩ :=
    checkMesh_side
  rw [if_neg, if_neg]
  · rintro ⟨mc, hmc, hy, hp⟩
    rw [hA] at hmc
    obtain rfl : (⟨3/100, ⟨-1, 0, 0⟩⟩ : MeshCollision) = mc :=
      Option.some.inj hmc
    norm_num at hy
  · rintro (⟨mc, hmc, -, -⟩ | ⟨mc, hmc, -, -⟩)
    · rw [hL] at hmc; exact Option.noConfusion hmc
    · rw [hR] at hmc; exact Option.noConfusion hmc

lemma norm_m100 : Vec3.normalize ⟨-1, 0, 0⟩ = ⟨-1, 0, 0⟩ := by
  unfold Vec3.normalize Vec3.length Vec3.lengthSq Vec3.smul
  norm_num

lemma addPush_side : addPushForce (objOnFloor cube6) ⟨-1, 0, 0⟩ (3/100) =
    some (⟨-1, 0, 0⟩, 3/100) := by
  unfold addPushForce
  rw [if_neg (by norm_num)]
  dsimp only
  rw [ite_self]
  rw [if_pos (by unfold Vec3.lengthSq; norm_num), norm_m100]

lemma pushOne_side : (pushOne envSide (1/2, 1/2) cube6).position =
    ⟨-(3/25), 1/20, 0⟩ := by
  have hGC : checkGripperMeshCollision envSide cube6 =
      (⟨none, none⟩ : GripperCol) := rfl
  have hA : checkArmMeshCollision envSide cube6 = some ⟨3/100, ⟨-1, 0, 0⟩⟩ :=
    checkMesh_side
  have hSeg : envSide.segContact cube6 = none := rfl
  have hcomb : Vec3.add ⟨0, 0, 0⟩ (Vec3.smul (3/100) ⟨-1, 0, 0⟩) =
      ⟨-(3/100), 0, 0⟩ := by
    unfold Vec3.add Vec3.smul
    norm_num
  have hnorm2 : Vec3.normalize ⟨-(3/100), 0, 0⟩ = ⟨-1, 0, 0⟩ := by
    unfold Vec3.normalize Vec3.length Vec3.lengthSq Vec3.smul
    have h : Real.sqrt (-(3/100) * -(3/100) + 0 * 0 + 0 * 0) = 3/100 := by
      rw [show (-(3/100) * -(3/100) + 0 * 0 + 0 * 0 : ℝ) = (3/100)^2 by norm_num]
      exact Real.sqrt_sq (by norm_num)
    rw [h]
    norm_num
  unfold pushOne
  rw [if_neg (by unfold cube6; simp)]
  dsimp only
  rw [hGC, hA, hSeg]
  dsimp only
  rw [addPush_side]
  dsimp only [Option.toList, List.foldl, List.append_nil, List.nil_append]
  rw [if_neg (by simp)]
  rw [if_pos ?_]
  · rw [hcomb, hnorm2]
    unfold clampAboveFloor
    norm_num [cube6, PhysObj.getHalfHeight, Vec3.add, Vec3.smul, Vec3.mk.injEq,
      max_def, min_def]
  · refine ⟨by norm_num, ?_⟩
    rw [hcomb]
    unfold Vec3.lengthSq
    norm_num

lemma classify_iff (env : ArmGeom) (obj : PhysObj) :
    checkArmCollisionWithBlockedObject env [obj] = some obj ↔
      obj.isGripped = false ∧ objOnFloor obj ∧ env.inGripZone obj = false ∧
      (blockingContact (checkGripperMeshCollision env obj).leftCollision ∨
       blockingContact (checkGripperMeshCollision env obj).rightCollision ∨
       blockingContact (checkArmMeshCollision env obj)) := by
  unfold checkArmCollisionWithBlockedObject
  simp only [List.findSome?]
  split_ifs with h1 h2 h3 h4 h5 <;> simp_all
  all_goals tauto

lemma horizontal_never_blocks (env : ArmGeom) (obj : PhysObj)
    (h : ∀ mc : MeshCollision,
      (checkGripperMeshCollision env obj).leftCollision = some mc ∨
      (checkGripperMeshCollision env obj).rightCollision = some mc ∨
      checkArmMeshCollision env obj = some mc →
      -(0.95) ≤ mc.separationAxis.y) :
    checkArmCollisionWithBlockedObject env [obj] = none := by
  unfold checkArmCollisionWithBlockedObject
  simp only [List.findSome?]
  split_ifs with h1 h2 h3 h4 h5
  all_goals try rfl
  · rcases h4 with ⟨mc, hmc, hy, -⟩ | ⟨mc, hmc, hy, -⟩
    · exact absurd (h mc (Or.inl hmc)) (by norm_num; linarith)
    · exact absurd (h mc (Or.inr (Or.inl hmc))) (by norm_num; linarith)
  · obtain ⟨mc, hmc, hy, -⟩ := h5
    exact absurd (h mc (Or.inr (Or.inr hmc))) (by norm_num; linarith)

/-- **C6.** An arm/object contact blocks iff the object is on the floor,
not gripped, not in the grip zone, and some gripper-finger or arm-mesh
contact has its separation axis pointing at least 95% straight down with
penetration above the 0.02 threshold; contacts whose separation axes never
point below -0.95 in y (in particular purely horizontal or upward ones)
never block. Concretely: a floor-resting cube under a descending gripper
finger is reported blocking, while the same cube approached horizontally by
an arm link is not blocking and is instead pushed aside (from x = 0 to
x = -0.12) by the stationary-arm push pass. -/
theorem blocking_classification :
    (∀ (env : ArmGeom) (obj : PhysObj),
        checkArmCollisionWithBlockedObject env [obj] = some obj ↔
          obj.isGripped = false ∧ objOnFloor obj ∧
          env.inGripZone obj = false ∧
          (blockingContact (checkGripperMeshCollision env obj).leftCollision ∨
           blockingContact (checkGripperMeshCollision env obj).rightCollision ∨
           blockingContact (checkArmMeshCollision env obj))) ∧
    (∀ (env : ArmGeom) (obj : PhysObj),
        (∀ mc : MeshCollision,
            (checkGripperMeshCollision env obj).leftCollision = some mc ∨
            (checkGripperMeshCollision env obj).rightCollision = some mc ∨
            checkArmMeshCollision env obj = some mc →
          -(0.95) ≤ mc.separationAxis.y) →
        checkArmCollisionWithBlockedObject env [obj] = none) ∧
    checkArmCollisionWithBlockedObject envDescend [cube6] = some cube6 ∧
    checkArmCollisionWithBlockedObject envSide [cube6] = none ∧
    (pushOne envSide (1/2, 1/2) cube6).position = ⟨-(3/25), 1/20, 0⟩ ∧
    cube6.position = ⟨0, 1/20, 0⟩ :=
  ⟨classify_iff, horizontal_never_blocks, check_descend, check_side,
   pushOne_side, rfl⟩

/-- Witness: the never-blocks direction applied to the concrete horizontal
scene, with the axis hypothesis discharged by evaluating the three contact
queries. -/
theorem blocking_classification_witness :
    checkArmCollisionWithBlockedObject envSide [cube6] = none := by
  refine blocking_classification.2.1 envSide cube6 ?_
  have hL : (checkGripperMeshCollision envSide cube6).leftCollision =
      none := rfl
  have hR : (checkGripperMeshCollision envSide cube6).rightCollision =
      none := rfl
  have hA : checkArmMeshCollision envSide cube6 = some ⟨3/100, ⟨-1, 0, 0⟩⟩ :=
    checkMesh_side
  intro mc hmc
  rcases hmc with hmc | hmc | hmc
  · rw [hL] at hmc
    exact Option.noConfusion hmc
  · rw [hR] at hmc
    exact Option.noConfusion hmc
  · rw [hA] at hmc
    obtain rfl : (⟨3/100, ⟨-1, 0, 0⟩⟩ : MeshCollision) = mc :=
      Option.some.inj hmc
    norm_num

end Claim6

noncomputable section Claim7

/-- The result of one `updateAnimation()` call: the new executor state,
whether a blocking collision was hit, and the queued command dequeued and
handed to `processCommand` on completion (if any). -/
structure UpdateResult where
  state : ArmState
  blocked : Bool
  dispatched : Option String

/-- The local `progressDelta` of `updateAnimation()` (app.js:2381):
target progress (elapsed over duration, capped at 1) minus the progress at
the last safe position. -/
def progressDelta (st : ArmState) (elapsed duration : ℝ) : ℝ :=
  min (elapsed / duration) 1 - st.lastSafeProgress

/-- The local `SUBSTEPS` of `updateAnimation()` (app.js:2398):
`Math.max(2, Math.ceil(progressDelta * 10))`. -/
def substepsOf (delta : ℝ) : ℕ := max 2 (⌈delta * 10⌉).toNat

/-- The substep loop of `updateAnimation()` (app.js:2403–2431), over the
remaining step indices. Each step proposes angles at
`lastSafeProgress + progressDelta * step / SUBSTEPS` (the source reads the
**mutated** `lastSafeProgress`), applies them, pushes objects (absorbed into
the collision `oracle`), and either records the step as safe or — on a
blocking collision — backs up to
`max(lastSafeProgress, stepProgress - (progressDelta / SUBSTEPS) * 0.5)`,
re-applies those angles and stops with `blocked`. -/
def animLoop (st : ArmState) (delta : ℝ) (S : ℕ) (oracle : ℕ → Bool) :
    List ℕ → ArmState × Bool
  | [] => (st, false)
  | step :: rest =>
      let stepProgress := st.lastSafeProgress + delta * step / S
      let proposed := getAnglesAtProgress st.animationStartAngles
        st.targetAngles stepProgress
      if oracle step then
        let safeProgress := max st.lastSafeProgress
          (stepProgress - delta / S * 0.5)
        let safeAngles := getAnglesAtProgress st.animationStartAngles
          st.targetAngles safeProgress
        ({ st with
            jointAngles := safeAngles
            lastSafeAngles := safeAngles
            lastSafeProgress := safeProgress }, true)
      else
        animLoop
          { st with
              jointAngles := proposed
              lastSafeAngles := proposed
              lastSafeProgress := stepProgress }
          delta S oracle rest

/-- `updateAnimation()` (app.js:2376–2460). Wall-clock elapsed time and the
animation duration are parameters; the per-substep collision verdict (which
depends on the pushed scene) is the `oracle`. On a block: roll back, clear
the queue, stop animating, cancel the program. On completion: stop
animating and dispatch the next queued command. -/
def updateAnimation (st : ArmState) (elapsed duration : ℝ)
    (oracle : ℕ → Bool) : UpdateResult :=
  if ¬st.isAnimating then ⟨st, false, none⟩
  else
    let targetProgress := min (elapsed / duration) 1
    let delta := progressDelta st elapsed duration
    if delta < 0.0001 then
      if targetProgress ≥ 1 then
        match st.animationQueue with
        | c :: rest =>
            ⟨{ st with isAnimating := false, animationQueue := rest },
             false, some c⟩
        | [] => ⟨{ st with isAnimating := false }, false, none⟩
      else ⟨st, false, none⟩
    else
      let S := substepsOf delta
      let res := animLoop st delta S oracle (List.range' 1 S)
      if res.2 then
        ⟨{ res.1 with
            isAnimating := false
            animationQueue := []
            runningProgram := none }, true, none⟩
      else if targetProgress ≥ 1 then
        match res.1.animationQueue with
        | c :: rest =>
            ⟨{ res.1 with isAnimating := false, animationQueue := rest },
             false, some c⟩
        | [] => ⟨{ res.1 with isAnimating := false }, false, none⟩
      else ⟨res.1, false, none⟩

lemma animLoop_first_block (delta : ℝ) (S : ℕ) (oracle : ℕ → Bool)
    (k : ℕ) (hk : oracle k = true) (hd : 0 ≤ delta) :
    ∀ (ks rest : List ℕ), (∀ j ∈ ks, oracle j = false) →
    ∀ st : ArmState, ∃ prev : ℝ,
      st.lastSafeProgress ≤ prev ∧
      animLoop st delta S oracle (ks ++ k :: rest) =
        ({ st with
            jointAngles := getAnglesAtProgress st.animationStartAngles
              st.targetAngles
              (max prev (prev + delta * k / S - delta / S * 0.5))
            lastSafeAngles := getAnglesAtProgress st.animationStartAngles
              st.targetAngles
              (max prev (prev + delta * k / S - delta / S * 0.5))
            lastSafeProgress :=
              max prev (prev + delta * k / S - delta / S * 0.5) }, true) := by
  intro ks
  induction ks with
  | nil =>
      intro rest _ st
      refine ⟨st.lastSafeProgress, le_refl _, ?_⟩
      show animLoop st delta S oracle (k :: rest) = _
      simp only [animLoop]
      rw [if_pos hk]
  | cons j ks ih =>
      intro rest hks st
      have hj : oracle j = false := hks j (List.mem_cons_self j ks)
      obtain ⟨prev, hle, heq⟩ :=
        ih rest (fun a ha => hks a (List.mem_cons_of_mem _ ha))
          { st with
            jointAngles := getAnglesAtProgress st.animationStartAngles
              st.targetAngles (st.lastSafeProgress + delta * j / S)
            lastSafeAngles := getAnglesAtProgress st.animationStartAngles
              st.targetAngles (st.lastSafeProgress + delta * j / S)
            lastSafeProgress := st.lastSafeProgress + delta * j / S }
      refine ⟨prev, ?_, ?_⟩
      · refine le_trans ?_ hle
        dsimp only
        have h0 : 0 ≤ delta * j / S :=
          div_nonneg (mul_nonneg hd (Nat.cast_nonneg _)) (Nat.cast_nonneg _)
        linarith
      · show animLoop st delta S oracle (j :: (ks ++ k :: rest)) = _
        simp only [animLoop]
        rw [if_neg (by rw [hj]; exact Bool.false_ne_true)]
        rw [heq]

lemma range'_first_block (k S : ℕ) (hk1 : 1 ≤ k) (hkS : k ≤ S) :
    List.range' 1 S = List.range' 1 (k - 1) ++ k :: List.range' (k + 1) (S - k) := by
  have h := List.range'_append 1 (k - 1) (S - (k - 1)) 1
  rw [show 1 + 1 * (k - 1) = k by omega, show S - (k - 1) + (k - 1) = S by omega]
    at h
  rw [← h, show S - (k - 1) = (S - k) + 1 by omega, List.range'_succ]

/-- **C7.** When a substep of an animating motion reports a blocking
collision (step `k`, the first to block), `updateAnimation` (1) returns
blocked with animation stopped, queue emptied, running program cancelled and
nothing dispatched, and (2) rolls `lastSafeProgress` back to
`max(prev, stepProgress - (delta/SUBSTEPS)*0.5)` — never earlier than the
progress `prev` of the last confirmed-safe substep, and strictly before the
blocking substep's progress — re-applying the angles at that progress, and
(3) a fresh animated `setJointAngles` command starts a new animation
(recoverable, not a crash). -/
theorem blocked_rollback (st : ArmState) (elapsed duration : ℝ)
    (oracle : ℕ → Bool) (k : ℕ)
    (han : st.isAnimating = true)
    (hd : 0.0001 ≤ progressDelta st elapsed duration)
    (hk1 : 1 ≤ k) (hkS : k ≤ substepsOf (progressDelta st elapsed duration))
    (hor : oracle k = true)
    (hfirst : ∀ j, 1 ≤ j → j < k → oracle j = false) :
    ((updateAnimation st elapsed duration oracle).blocked = true ∧
     (updateAnimation st elapsed duration oracle).state.isAnimating = false ∧
     (updateAnimation st elapsed duration oracle).state.animationQueue = [] ∧
     (updateAnimation st elapsed duration oracle).state.runningProgram =
       none ∧
     (updateAnimation st elapsed duration oracle).dispatched = none) ∧
    (∃ prev : ℝ, st.lastSafeProgress ≤ prev ∧
      (updateAnimation st elapsed duration oracle).state.lastSafeProgress =
        max prev (prev +
          progressDelta st elapsed duration * k /
            substepsOf (progressDelta st elapsed duration) -
          progressDelta st elapsed duration /
            substepsOf (progressDelta st elapsed duration) * 0.5) ∧
      prev ≤
        (updateAnimation st elapsed duration oracle).state.lastSafeProgress ∧
      (updateAnimation st elapsed duration oracle).state.lastSafeProgress <
        prev + progressDelta st elapsed duration * k /
          substepsOf (progressDelta st elapsed duration) ∧
      (updateAnimation st elapsed duration oracle).state.jointAngles =
        getAnglesAtProgress st.animationStartAngles st.targetAngles
          (updateAnimation st elapsed duration oracle).state.lastSafeProgress ∧
      (updateAnimation st elapsed duration oracle).state.lastSafeAngles =
        (updateAnimation st elapsed duration oracle).state.jointAngles) ∧
    (∀ b s e w : ℝ,
      (setJointAngles (updateAnimation st elapsed duration oracle).state
        b s e w true).isAnimating = true) := by
  have hd0 : (0:ℝ) < progressDelta st elapsed duration := by
    have : (0:ℝ) < 0.0001 := by norm_num
    linarith
  obtain ⟨prev, hle, heq⟩ :=
    animLoop_first_block (progressDelta st elapsed duration)
      (substepsOf (progressDelta st elapsed duration)) oracle k hor
      (le_of_lt hd0) (List.range' 1 (k - 1))
      (List.range' (k + 1) (substepsOf (progressDelta st elapsed duration) - k))
      (by
        intro j hj
        rw [List.mem_range'_1] at hj
        exact hfirst j hj.1 (by omega))
      st
  have hres : updateAnimation st elapsed duration oracle =
      ⟨{ st with
          jointAngles := getAnglesAtProgress st.animationStartAngles
            st.targetAngles
            (max prev (prev +
              progressDelta st elapsed duration * k /
                substepsOf (progressDelta st elapsed duration) -
              progressDelta st elapsed duration /
                substepsOf (progressDelta st elapsed duration) * 0.5))
          lastSafeAngles := getAnglesAtProgress st.animationStartAngles
            st.targetAngles
            (max prev (prev +
              progressDelta st elapsed duration * k /
                substepsOf (progressDelta st elapsed duration) -
              progressDelta st elapsed duration /
                substepsOf (progressDelta st elapsed duration) * 0.5))
          lastSafeProgress :=
            max prev (prev +
              progressDelta st elapsed duration * k /
                substepsOf (progressDelta st elapsed duration) -
              progressDelta st elapsed duration /
                substepsOf (progressDelta st elapsed duration) * 0.5)
          isAnimating := false
          animationQueue := []
          runningProgram := none }, true, none⟩ := by
    unfold updateAnimation
    rw [if_neg (not_not_intro han)]
    dsimp only
    rw [if_neg (not_lt.mpr hd)]
    rw [range'_first_block k _ hk1 hkS, heq]
    rfl
  have hSpos : (0:ℝ) < (substepsOf (progressDelta st elapsed duration) : ℝ) := by
    have h2 : 2 ≤ substepsOf (progressDelta st elapsed duration) :=
      le_max_left _ _
    have : (0:ℕ) < substepsOf (progressDelta st elapsed duration) := by omega
    exact_mod_cast this
  have hkpos : (0:ℝ) < (k : ℝ) := by
    have : (0:ℕ) < k := hk1
    exact_mod_cast this
  have hstep : (0:ℝ) < progressDelta st elapsed duration * k /
      substepsOf (progressDelta st elapsed duration) :=
    div_pos (mul_pos hd0 hkpos) hSpos
  have hhalf : (0:ℝ) < progressDelta st elapsed duration /
      substepsOf (progressDelta st elapsed duration) * 0.5 := by
    have := div_pos hd0 hSpos
    nlinarith
  rw [hres]
  refine ⟨⟨rfl, rfl, rfl, rfl, rfl⟩, ⟨prev, hle, rfl, le_max_left _ _, ?_, rfl,
    rfl⟩, fun b s e w => rfl⟩
  dsimp only
  rw [max_lt_iff]
  constructor
  · linarith
  · linarith

/-- State for the witness run: animating, halfway through a move, with a
queued command and a running program. -/
noncomputable def st7 : ArmState :=
  ⟨⟨0, 0, 0, 0, 0⟩, ⟨1, 0, 0, 0, 0⟩, true, ⟨0, 0, 0, 0, 0⟩,
   ⟨0, 0, 0, 0, 0⟩, 0, ["grip"], some "demo"⟩

/-- Collision verdicts for the witness run: substep 2 blocks. -/
def or7 : ℕ → Bool := fun n => n == 2

/-- Witness: the rollback theorem applied at 500 ms into a 1000 ms move
(progress delta 1/2, 5 substeps) with substep 2 the first to block. -/
theorem blocked_rollback_witness :
    ((updateAnimation st7 500 1000 or7).blocked = true ∧
     (updateAnimation st7 500 1000 or7).state.isAnimating = false ∧
     (updateAnimation st7 500 1000 or7).state.animationQueue = [] ∧
     (updateAnimation st7 500 1000 or7).state.runningProgram = none ∧
     (updateAnimation st7 500 1000 or7).dispatched = none) ∧
    (∃ prev : ℝ, st7.lastSafeProgress ≤ prev ∧
      (updateAnimation st7 500 1000 or7).state.lastSafeProgress =
        max prev (prev +
          progressDelta st7 500 1000 * 2 / substepsOf (progressDelta st7 500 1000) -
          progressDelta st7 500 1000 / substepsOf (progressDelta st7 500 1000) * 0.5) ∧
      prev ≤ (updateAnimation st7 500 1000 or7).state.lastSafeProgress ∧
      (updateAnimation st7 500 1000 or7).state.lastSafeProgress <
        prev + progressDelta st7 500 1000 * 2 /
          substepsOf (progressDelta st7 500 1000) ∧
      (updateAnimation st7 500 1000 or7).state.jointAngles =
        getAnglesAtProgress st7.animationStartAngles st7.targetAngles
          (updateAnimation st7 500 1000 or7).state.lastSafeProgress ∧
      (updateAnimation st7 500 1000 or7).state.lastSafeAngles =
        (updateAnimation st7 500 1000 or7).state.jointAngles) ∧
    (∀ b s e w : ℝ,
      (setJointAngles (updateAnimation st7 500 1000 or7).state
        b s e w true).isAnimating = true) :=
  blocked_rollback st7 500 1000 or7 2 rfl
    (by
      show (0.0001 : ℝ) ≤ min (500 / 1000) 1 - st7.lastSafeProgress
      show (0.0001 : ℝ) ≤ min (500 / 1000) 1 - 0
      rw [show min (500 / 1000 : ℝ) 1 = 1/2 by rw [min_eq_left] <;> norm_num]
      norm_num)
    (by norm_num)
    (by unfold substepsOf; exact le_max_left _ _)
    rfl
    (by
      intro j h1 h2
      obtain rfl : j = 1 := by omega
      rfl)

end Claim7


noncomputable section ObjectLayer

/-- The object-layer globals of app.js (`sceneObjects`, `grippedObject`,
`gripperOpenness`, `targetGripperOpenness`, `gripperAnimating`). The source
holds the gripped object by reference; here `grippedIdx` is its index in
`objects`, and the index bookkeeping of `removeObject` mirrors the
reference semantics. -/
structure World where
  objects : List PhysObj
  grippedIdx : Option ℕ
  gripperOpenness : ℝ
  targetGripperOpenness : ℝ
  gripperAnimating : Bool

/-- `gripObject(obj)` (app.js:1810–1846): refuse if the object is already
gripped or anything is held; otherwise raise the grip flag, store the
gripper-local offset and relative orientation, zero the velocity, and set
the snug target openness. -/
def gripObject (pose : GripperPose) (w : World) (i : ℕ) : World :=
  match w.objects.get? i with
  | none => w
  | some obj =>
    if obj.isGripped ∨ w.grippedIdx.isSome then w
    else
      let obj1 := { obj with
        isGripped := true
        grippedOffset := some (pose.rotInv (Vec3.sub obj.position pose.center))
        grippedRotation := some pose.rotInv
        velocity := ⟨0, 0, 0⟩ }
      let objectWidth := obj.getRadius * 2
      let finalOpenness := (objectWidth / 2 + 0.015 - 0.03) / (0.12 - 0.03) * 100
      { w with
        objects := w.objects.set i obj1
        grippedIdx := some i
        targetGripperOpenness := max 5 (min 100 finalOpenness)
        gripperAnimating := true }

/-- `releaseObject()` (app.js:1848–1864): no-op when nothing is held;
otherwise clear the linkage first, drop the flag/offset/orientation and give
the object a slight downward velocity. -/
def releaseObject (w : World) : World :=
  match w.grippedIdx with
  | none => w
  | some g =>
    { w with
      grippedIdx := none
      objects :=
        match w.objects.get? g with
        | some obj => w.objects.set g
            { obj with
              isGripped := false
              grippedOffset := none
              grippedRotation := none
              velocity := ⟨0, -(0.5), 0⟩ }
        | none => w.objects }

/-- `spawnObject(...)` (app.js:926–977): a fresh `PhysicsObject` (never
gripped, zero velocity) appended to the scene, lifted above the floor. -/
def spawnObject (w : World) (pos size : Vec3) : World :=
  { w with
    objects := w.objects ++
      [⟨⟨pos.x, max pos.y (size.y / 2), pos.z⟩, ⟨0, 0, 0⟩, size,
        false, none, none⟩] }

/-- `removeObject(obj)` (app.js:979–1023): splice the object out; if it was
the held one, clear `grippedObject`. With indices, the held object's index
shifts down when an earlier object is removed (the source's reference stays
valid). -/
def removeObject (w : World) (i : ℕ) : World :=
  if i < w.objects.length then
    { w with
      objects := w.objects.eraseIdx i
      grippedIdx :=
        match w.grippedIdx with
        | some g => if g = i then none
            else if i < g then some (g - 1) else some g
        | none => none }
  else w

/-- `setGripperOpenness(percent, animated)` (app.js:2156–2175): clamp the
percentage; release the held object when opening meaningfully beyond the
current openness; then set target (animated) or current (instant)
openness. -/
def setGripperOpenness (w : World) (percent : ℝ) (animated : Bool) : World :=
  let clampedPercent := max 0 (min 100 percent)
  let w1 := if w.grippedIdx.isSome ∧ clampedPercent > w.gripperOpenness + 1
    then releaseObject w else w
  if animated then
    { w1 with
      targetGripperOpenness := clampedPercent
      gripperAnimating := true }
  else
    { w1 with
      gripperOpenness := clampedPercent
      targetGripperOpenness := clampedPercent
      gripperAnimating := false }

/-- One observable transition of the object layer: spawning or removing an
object, gripping, releasing, a gripper-openness command, or a physics tick
(`updatePhysics`). -/
inductive Step : World → World → Prop
  | spawn (w : World) (pos size : Vec3) : Step w (spawnObject w pos size)
  | remove (w : World) (i : ℕ) : Step w (removeObject w i)
  | grip (pose : GripperPose) (w : World) (i : ℕ) :
      Step w (gripObject pose w i)
  | release (w : World) : Step w (releaseObject w)
  | setOpenness (w : World) (percent : ℝ) (animated : Bool) :
      Step w (setGripperOpenness w percent animated)
  | physicsTick (env : ArmGeom) (pose : GripperPose) (isAnimating : Bool)
      (dt : ℝ) (w : World) :
      Step w { w with objects := updatePhysics env pose isAnimating dt w.objects }

/-- The empty initial scene (app.js:89–93). -/
def initialWorld : World := ⟨[], none, 100, 100, false⟩

/-- States reachable from the empty scene by object-layer transitions. -/
def Reachable (w : World) : Prop :=
  Relation.ReflTransGen Step initialWorld w

/-- The grip-linkage invariant: `grippedIdx` is in range, and an object's
`isGripped` flag holds exactly when `grippedIdx` points at it. -/
def GripInv (w : World) : Prop :=
  (∀ g, w.grippedIdx = some g → g < w.objects.length) ∧
  (∀ k obj, w.objects.get? k = some obj →
    (obj.isGripped = true ↔ w.grippedIdx = some k))

end ObjectLayer

section GripFlags

/-- The per-index grip flags of an object list. -/
def gripFlags (objs : List PhysObj) : List Bool :=
  objs.map (fun o => o.isGripped)

lemma updateGripped_isGripped9 (pose : GripperPose) (obj : PhysObj) :
    (updateGrippedObjectPosition pose obj).isGripped = obj.isGripped := by
  unfold updateGrippedObjectPosition
  split_ifs with h
  · cases obj.grippedOffset <;> rfl
  · rfl

lemma clampFloor_isGripped9 (hh : ℝ) (obj : PhysObj) :
    (clampAboveFloor hh obj).isGripped = obj.isGripped := by
  unfold clampAboveFloor
  split_ifs <;> rfl

lemma pushOne_isGripped (env : ArmGeom) (r : ℝ × ℝ) (obj : PhysObj) :
    (pushOne env r obj).isGripped = obj.isGripped := by
  have hclamp : ∀ (hh : ℝ) (o : PhysObj), o.isGripped = obj.isGripped →
      (clampAboveFloor hh o).isGripped = obj.isGripped := by
    intro hh o h
    rw [clampFloor_isGripped9]
    exact h
  unfold pushOne
  split_ifs with hg
  · rfl
  · dsimp only
    split_ifs
    all_goals first | rfl | exact hclamp _ _ rfl

lemma pushObjects_gripFlags (env : ArmGeom) :
    ∀ (i : ℕ) (objs : List PhysObj),
      gripFlags (pushObjectsFromArm env i objs) = gripFlags objs := by
  intro i objs
  induction objs generalizing i with
  | nil => rfl
  | cons o rest ih =>
      show gripFlags (pushOne env (env.rand i) o ::
        pushObjectsFromArm env (i + 1) rest) = _
      unfold gripFlags at ih ⊢
      simp only [List.map_cons, pushOne_isGripped]
      rw [ih]

lemma set_getElem?_self (l : List Bool) (i : ℕ) (b : Bool)
    (h : l[i]? = some b) : l.set i b = l := by
  apply List.ext_getElem?
  intro n
  by_cases hn : i = n
  · subst hn
    have hlt : i < l.length := by
      by_contra hge
      rw [List.getElem?_eq_none (Nat.le_of_not_lt hge)] at h
      exact Option.noConfusion h
    rw [List.getElem?_set_self hlt]
    exact h.symm
  · rw [List.getElem?_set_ne hn]

lemma resolvePair_gripFlags (iter : ℕ) (objs : List PhysObj) (i j : ℕ)
    (hij : i ≠ j) :
    gripFlags (resolvePair iter objs i j) = gripFlags objs := by
  unfold resolvePair
  cases hgi : objs.get? i with
  | none => rfl
  | some objA =>
    cases hgj : objs.get? j with
    | none => rfl
    | some objB =>
      rw [List.get?_eq_getElem?] at hgi hgj
      dsimp only
      by_cases hgrip : objA.isGripped = true ∨ objB.isGripped = true
      · rw [if_pos hgrip]
      rw [if_neg hgrip]
      by_cases hint : Box3.intersects (objBox objA) (objBox objB)
      · rw [if_neg (not_not_intro hint)]
        cases hsep : computeAABBSeparation (objBox objA) (objBox objB) with
        | none => rfl
        | some separation =>
          dsimp only
          by_cases hslop : separation.depth < 0.001
          · rw [if_pos hslop]
          · rw [if_neg hslop]
            unfold gripFlags
            rw [List.map_set, List.map_set]
            dsimp only
            have hA : (objs.map (fun o => o.isGripped))[i]? =
                some objA.isGripped := by
              rw [List.getElem?_map, hgi]
              rfl
            have hB : ((objs.map (fun o => o.isGripped)).set i
                objA.isGripped)[j]? = some objB.isGripped := by
              rw [List.getElem?_set_ne hij, List.getElem?_map, hgj]
              rfl
            rw [set_getElem?_self _ j _ hB, set_getElem?_self _ i _ hA]
      · rw [if_pos hint]

lemma foldl_preserves9 {α : Type} (P : List PhysObj → Prop)
    (f : List PhysObj → α → List PhysObj)
    (hf : ∀ acc b, P acc → P (f acc b)) :
    ∀ (l : List α) (acc), P acc → P (l.foldl f acc) := by
  intro l
  induction l with
  | nil => intro acc h; exact h
  | cons x xs ih => intro acc h; exact ih _ (hf _ _ h)

lemma resolveObjectCollisions_gripFlags (objs : List PhysObj) :
    gripFlags (resolveObjectCollisions objs) = gripFlags objs := by
  unfold resolveObjectCollisions
  refine foldl_preserves9 (fun l => gripFlags l = gripFlags objs) _ ?_ _ _ rfl
  intro acc iter hacc
  refine foldl_preserves9 (fun l => gripFlags l = gripFlags objs) _ ?_ _ _ hacc
  intro acc2 i hacc2
  refine foldl_preserves9 (fun l => gripFlags l = gripFlags objs) _ ?_ _ _ hacc2
  intro acc3 j hacc3
  by_cases hij : i < j
  · rw [if_pos hij, resolvePair_gripFlags _ _ _ _ (Nat.ne_of_lt hij)]
    exact hacc3
  · rw [if_neg hij]
    exact hacc3

lemma substepMap_gripFlags (pose : GripperPose) (dt : ℝ)
    (acc : List PhysObj) :
    gripFlags (acc.map fun obj =>
      if obj.isGripped then updateGrippedObjectPosition pose obj
      else integrateOne dt obj) = gripFlags acc := by
  unfold gripFlags
  rw [List.map_map]
  apply List.map_congr_left
  intro o _
  show (if o.isGripped then updateGrippedObjectPosition pose o
    else integrateOne dt o).isGripped = o.isGripped
  split_ifs with h
  · exact updateGripped_isGripped9 pose o
  · rfl

lemma updatePhysics_gripFlags (env : ArmGeom) (pose : GripperPose)
    (isAnimating : Bool) (dt : ℝ) (objs : List PhysObj) :
    gripFlags (updatePhysics env pose isAnimating dt objs) = gripFlags objs := by
  have hfold : gripFlags
      ((List.range (⌈dt / 0.02⌉).toNat).foldl
        (fun acc _ =>
          resolveObjectCollisions
            (acc.map fun obj =>
              if obj.isGripped then updateGrippedObjectPosition pose obj
              else integrateOne (dt / ((⌈dt / 0.02⌉).toNat : ℝ)) obj))
        objs) = gripFlags objs := by
    refine foldl_preserves9 (fun l => gripFlags l = gripFlags objs) _ ?_ _ _ rfl
    intro acc b hacc
    rw [resolveObjectCollisions_gripFlags, substepMap_gripFlags]
    exact hacc
  unfold updatePhysics
  dsimp only
  split_ifs with hpush
  · exact hfold
  · rw [pushObjects_gripFlags]
    exact hfold

end GripFlags

section Claim9

lemma gripInv_fields (w w9 : World) (ho : w9.objects = w.objects)
    (hg : w9.grippedIdx = w.grippedIdx) (h : GripInv w) : GripInv w9 := by
  unfold GripInv at h ⊢
  rw [ho, hg]
  exact h

lemma gripInv_spawn (w : World) (pos size : Vec3) (h : GripInv w) :
    GripInv (spawnObject w pos size) := by
  obtain ⟨hrange, hiff⟩ := h
  constructor
  · intro g hg
    have := hrange g hg
    unfold spawnObject
    dsimp only
    rw [List.length_append]
    omega
  · intro k obj hk
    unfold spawnObject at hk ⊢
    dsimp only at hk ⊢
    rw [List.get?_eq_getElem?] at hk
    by_cases hki : k < w.objects.length
    · rw [List.getElem?_append_left hki, ← List.get?_eq_getElem?] at hk
      exact hiff k obj hk
    · rw [List.getElem?_append_right (Nat.le_of_not_lt hki)] at hk
      have hkl : k - w.objects.length = 0 := by
        rcases Nat.lt_or_ge (k - w.objects.length) 1 with h1 | h1
        · omega
        · rw [List.getElem?_eq_none (by simpa using h1)] at hk
          exact Option.noConfusion hk
      rw [hkl] at hk
      obtain rfl : _ = obj := Option.some.inj (by simpa using hk)
      constructor
      · intro hfalse
        exact absurd hfalse Bool.false_ne_true
      · intro hgk
        have := hrange k hgk
        omega

lemma gripInv_remove (w : World) (i : ℕ) (h : GripInv w) :
    GripInv (removeObject w i) := by
  unfold removeObject
  split_ifs with hlen
  · obtain ⟨hrange, hiff⟩ := h
    constructor
    · intro g hg
      simp only at hg
      rw [List.length_eraseIdx, if_pos hlen]
      cases hw : w.grippedIdx with
      | none => rw [hw] at hg; exact Option.noConfusion hg
      | some g0 =>
          rw [hw] at hg
          dsimp only at hg
          have hg0 := hrange g0 hw
          split_ifs at hg with h1 h2
          · obtain rfl : g0 - 1 = g := Option.some.inj hg
            omega
          · obtain rfl : g0 = g := Option.some.inj hg
            omega
    · intro k obj hk
      simp only at hk ⊢
      rw [List.get?_eq_getElem?, List.getElem?_eraseIdx] at hk
      by_cases hki : k < i
      · rw [if_pos hki, ← List.get?_eq_getElem?] at hk
        rw [hiff k obj hk]
        cases hw : w.grippedIdx with
        | none => simp
        | some g0 =>
            have hg0 := hrange g0 hw
            dsimp only
            split_ifs with h1 h2
            · constructor
              · intro hx
                exact absurd (Option.some.inj hx) (by omega)
              · intro hx
                exact absurd hx (by simp)
            · simp only [Option.some.injEq]
              try omega
            · simp only [Option.some.injEq]
              try omega
      · rw [if_neg hki, ← List.get?_eq_getElem?] at hk
        rw [hiff (k + 1) obj hk]
        cases hw : w.grippedIdx with
        | none => simp
        | some g0 =>
            have hg0 := hrange g0 hw
            dsimp only
            split_ifs with h1 h2
            · constructor
              · intro hx
                exact absurd (Option.some.inj hx) (by omega)
              · intro hx
                exact absurd hx (by simp)
            · simp only [Option.some.injEq]
              try omega
            · simp only [Option.some.injEq]
              try omega
  · exact h

lemma gripInv_grip (pose : GripperPose) (w : World) (i : ℕ)
    (h : GripInv w) : GripInv (gripObject pose w i) := by
  unfold gripObject
  cases hgi : w.objects.get? i with
  | none => exact h
  | some obj =>
      dsimp only
      split_ifs with hguard
      · exact h
      · obtain ⟨h1, h2⟩ := not_or.mp hguard
        have hnone : w.grippedIdx = none :=
          Option.not_isSome_iff_eq_none.mp h2
        obtain ⟨hrange, hiff⟩ := h
        have hilen : i < w.objects.length := by
          rw [List.get?_eq_getElem?] at hgi
          exact (List.getElem?_eq_some_iff.mp hgi).1
        constructor
        · intro g hg
          simp only at hg
          obtain rfl : i = g := Option.some.inj hg
          rw [List.length_set]
          exact hilen
        · intro k o hk
          simp only at hk ⊢
          by_cases hki : k = i
          · subst hki
            rw [List.get?_eq_getElem?, List.getElem?_set_self hilen] at hk
            obtain rfl : _ = o := Option.some.inj hk
            simp
          · rw [List.get?_eq_getElem?,
              List.getElem?_set_ne (fun hx => hki hx.symm),
              ← List.get?_eq_getElem?] at hk
            have hold := hiff k o hk
            rw [hnone] at hold
            constructor
            · intro hx
              exact absurd (hold.mp hx) (by simp)
            · intro hx
              exact absurd (Option.some.inj hx) (fun hx2 => hki hx2.symm)

lemma gripInv_release (w : World) (h : GripInv w) :
    GripInv (releaseObject w) := by
  unfold releaseObject
  cases hw : w.grippedIdx with
  | none => exact h
  | some g =>
      obtain ⟨hrange, hiff⟩ := h
      have hglen : g < w.objects.length := hrange g hw
      dsimp only
      cases hgg : w.objects.get? g with
      | none =>
          rw [List.get?_eq_getElem?, List.getElem?_eq_none_iff] at hgg
          omega
      | some obj =>
          constructor
          · intro g9 hg9
            exact absurd hg9 (by simp)
          · intro k o hk
            simp only at hk ⊢
            by_cases hkg : k = g
            · subst hkg
              rw [List.get?_eq_getElem?, List.getElem?_set_self hglen] at hk
              obtain rfl : _ = o := Option.some.inj hk
              simp
            · rw [List.get?_eq_getElem?,
                List.getElem?_set_ne (fun hx => hkg hx.symm),
                ← List.get?_eq_getElem?] at hk
              have hold := hiff k o hk
              rw [hw] at hold
              constructor
              · intro hx
                exact absurd (Option.some.inj (hold.mp hx))
                  (fun hx2 => hkg hx2.symm)
              · intro hx
                exact absurd hx (by simp)

lemma gripInv_setOpenness (w : World) (percent : ℝ) (animated : Bool)
    (h : GripInv w) : GripInv (setGripperOpenness w percent animated) := by
  unfold setGripperOpenness
  dsimp only
  split_ifs
  all_goals
    first
      | exact gripInv_fields _ _ rfl rfl h
      | exact gripInv_fields _ _ rfl rfl (gripInv_release w h)

lemma gripInv_tick (env : ArmGeom) (pose : GripperPose) (an : Bool)
    (dt : ℝ) (w : World) (h : GripInv w) :
    GripInv { w with objects := updatePhysics env pose an dt w.objects } := by
  have hflags := updatePhysics_gripFlags env pose an dt w.objects
  obtain ⟨hrange, hiff⟩ := h
  have hlen : (updatePhysics env pose an dt w.objects).length =
      w.objects.length := by
    have hc := congrArg List.length hflags
    unfold gripFlags at hc
    simpa using hc
  constructor
  · intro g hg
    simp only at hg ⊢
    rw [hlen]
    exact hrange g hg
  · intro k obj hk
    simp only at hk ⊢
    have h1 : (gripFlags (updatePhysics env pose an dt w.objects))[k]? =
        some obj.isGripped := by
      unfold gripFlags
      rw [List.get?_eq_getElem?] at hk
      rw [List.getElem?_map, hk]
      rfl
    rw [hflags] at h1
    unfold gripFlags at h1
    rw [List.getElem?_map] at h1
    cases hold : w.objects[k]? with
    | none => rw [hold] at h1; exact Option.noConfusion h1
    | some o0 =>
        rw [hold] at h1
        have ho0 : o0.isGripped = obj.isGripped :=
          Option.some.inj (by simpa using h1)
        rw [← List.get?_eq_getElem?] at hold
        rw [← ho0]
        exact hiff k o0 hold

lemma gripInv_step (w w9 : World) (h : GripInv w) (hs : Step w w9) :
    GripInv w9 := by
  cases hs with
  | spawn w pos size => exact gripInv_spawn w pos size h
  | remove w i => exact gripInv_remove w i h
  | grip pose w i => exact gripInv_grip pose w i h
  | release w => exact gripInv_release w h
  | setOpenness w percent animated => exact gripInv_setOpenness w percent animated h
  | physicsTick env pose an dt w => exact gripInv_tick env pose an dt w h

lemma gripInv_initial : GripInv initialWorld := by
  constructor
  · intro g hg
    exact absurd hg (by simp [initialWorld])
  · intro k obj hk
    exact absurd hk (by simp [initialWorld])

lemma gripInv_reachable (w : World) (h : Reachable w) : GripInv w := by
  unfold Reachable at h
  induction h with
  | refl => exact gripInv_initial
  | tail hsteps hstep ih => exact gripInv_step _ _ ih hstep

/-- **C9.** In every state reachable from the empty scene by object-layer
transitions (spawn, remove, grip, release, gripper-openness commands,
physics ticks), the grip linkage invariant holds and hence at most one
object is gripped; `gripObject` on an already-gripped object, or while
anything is held, changes nothing; `releaseObject` with nothing held
changes nothing. -/
theorem single_object_grip :
    (∀ w : World, Reachable w →
      GripInv w ∧
      ∀ j k oj ok, w.objects.get? j = some oj → w.objects.get? k = some ok →
        oj.isGripped = true → ok.isGripped = true → j = k) ∧
    (∀ (pose : GripperPose) (w : World) (i : ℕ) (obj : PhysObj),
      w.objects.get? i = some obj → obj.isGripped = true →
      gripObject pose w i = w) ∧
    (∀ (pose : GripperPose) (w : World) (i : ℕ),
      w.grippedIdx.isSome = true → gripObject pose w i = w) ∧
    (∀ w : World, w.grippedIdx = none → releaseObject w = w) := by
  refine ⟨?_, ?_, ?_, ?_⟩
  · intro w hre
    have hinv := gripInv_reachable w hre
    refine ⟨hinv, ?_⟩
    intro j k oj ok hj hk hgj hgk
    have h1 := (hinv.2 j oj hj).mp hgj
    have h2 := (hinv.2 k ok hk).mp hgk
    rw [h1] at h2
    exact Option.some.inj h2
  · intro pose w i obj hget hg
    unfold gripObject
    rw [hget]
    dsimp only
    rw [if_pos (Or.inl hg)]
  · intro pose w i hsome
    unfold gripObject
    cases hget : w.objects.get? i with
    | none => rfl
    | some obj =>
        dsimp only
        rw [if_pos (Or.inr hsome)]
  · intro w hnone
    unfold releaseObject
    rw [hnone]

/-- A held 10 cm cube and the world where the gripper holds it, for the
witness. -/
noncomputable def heldCube : PhysObj :=
  ⟨⟨0, 1/2, 0⟩, ⟨0, 0, 0⟩, ⟨1/10, 1/10, 1/10⟩, true, some ⟨0, 0, 0⟩,
   some id⟩

noncomputable def heldWorld : World := ⟨[heldCube], some 0, 30, 30, false⟩

noncomputable def pose9 : GripperPose := ⟨⟨0, 1/2, 0⟩, id, id⟩

/-- Witness: releasing in the empty scene is a no-op, the empty scene
is reachable hence satisfies the invariant, and gripping while holding
the cube is a no-op. -/
theorem single_object_grip_witness :
    releaseObject initialWorld = initialWorld ∧
    GripInv initialWorld ∧
    gripObject pose9 heldWorld 0 = heldWorld ∧
    gripObject pose9 heldWorld 1 = heldWorld := by
  refine ⟨single_object_grip.2.2.2 initialWorld rfl,
    (single_object_grip.1 initialWorld Relation.ReflTransGen.refl).1,
    single_object_grip.2.1 pose9 heldWorld 0 heldCube rfl rfl,
    single_object_grip.2.2.1 pose9 heldWorld 1 rfl⟩

end Claim9

section Claim10

lemma releaseObject_spec (w : World) (g : ℕ) (obj : PhysObj)
    (hw : w.grippedIdx = some g) (hget : w.objects.get? g = some obj) :
    releaseObject w = { w with
      grippedIdx := none
      objects := w.objects.set g
        { obj with
          isGripped := false
          grippedOffset := none
          grippedRotation := none
          velocity := ⟨0, -(0.5), 0⟩ } } := by
  unfold releaseObject
  rw [hw]
  dsimp only
  rw [hget]

/-- **C10.** If an object is held and the requested (clamped) openness
exceeds the current openness by more than 1, `setGripperOpenness` releases
it — the grip linkage (flag, stored offset, stored orientation) is cleared
in the returned state, so the subsequent gripped-position update is a no-op
on it, and it receives a small downward velocity. With nothing held, or a
request not meaningfully above the current openness (in particular any
closing or equal request), the objects and the grip linkage are
untouched. -/
theorem release_on_meaningful_open :
    (∀ (w : World) (percent : ℝ) (animated : Bool) (g : ℕ) (obj : PhysObj),
      w.grippedIdx = some g →
      w.objects.get? g = some obj →
      max 0 (min 100 percent) > w.gripperOpenness + 1 →
      (setGripperOpenness w percent animated).grippedIdx = none ∧
      ∃ obj9,
        (setGripperOpenness w percent animated).objects.get? g = some obj9 ∧
        obj9.isGripped = false ∧
        obj9.grippedOffset = none ∧
        obj9.grippedRotation = none ∧
        obj9.velocity = ⟨0, -(0.5), 0⟩ ∧
        ∀ pose : GripperPose, updateGrippedObjectPosition pose obj9 = obj9) ∧
    (∀ (w : World) (percent : ℝ) (animated : Bool),
      w.grippedIdx = none ∨
        ¬(max 0 (min 100 percent) > w.gripperOpenness + 1) →
      (setGripperOpenness w percent animated).objects = w.objects ∧
      (setGripperOpenness w percent animated).grippedIdx = w.grippedIdx) := by
  constructor
  · intro w percent animated g obj hw hget hcl
    have hglen : g < w.objects.length := by
      rw [List.get?_eq_getElem?] at hget
      exact (List.getElem?_eq_some_iff.mp hget).1
    have hrel : setGripperOpenness w percent animated =
        if animated then
          { releaseObject w with
            targetGripperOpenness := max 0 (min 100 percent)
            gripperAnimating := true }
        else
          { releaseObject w with
            gripperOpenness := max 0 (min 100 percent)
            targetGripperOpenness := max 0 (min 100 percent)
            gripperAnimating := false } := by
      have hcond : w.grippedIdx.isSome = true ∧
          max 0 (min 100 percent) > w.gripperOpenness + 1 :=
        ⟨by rw [hw]; rfl, hcl⟩
      unfold setGripperOpenness
      dsimp only
      rw [if_pos hcond]
    rw [hrel, releaseObject_spec w g obj hw hget]
    have hobj : (w.objects.set g
        { obj with
          isGripped := false
          grippedOffset := none
          grippedRotation := none
          velocity := ⟨0, -(0.5), 0⟩ }).get? g = some
        { obj with
          isGripped := false
          grippedOffset := none
          grippedRotation := none
          velocity := ⟨0, -(0.5), 0⟩ } := by
      rw [List.get?_eq_getElem?, List.getElem?_set_self hglen]
    split_ifs with hanim
    · exact ⟨rfl, _, hobj, rfl, rfl, rfl, rfl, fun pose => rfl⟩
    · exact ⟨rfl, _, hobj, rfl, rfl, rfl, rfl, fun pose => rfl⟩
  · intro w percent animated hno
    have hcond : ¬(w.grippedIdx.isSome = true ∧
        max 0 (min 100 percent) > w.gripperOpenness + 1) := by
      rcases hno with hno | hno
      · rintro ⟨h1, -⟩
        rw [hno] at h1
        simp at h1
      · rintro ⟨-, h2⟩
        exact hno h2
    unfold setGripperOpenness
    dsimp only
    rw [if_neg hcond]
    split_ifs with hanim
    · exact ⟨rfl, rfl⟩
    · exact ⟨rfl, rfl⟩

/-- Witness: opening to 80% while holding the cube at 30% openness releases
it; closing to 10% does not. -/
theorem release_on_meaningful_open_witness :
    ((setGripperOpenness heldWorld 80 true).grippedIdx = none ∧
      ∃ obj9,
        (setGripperOpenness heldWorld 80 true).objects.get? 0 = some obj9 ∧
        obj9.isGripped = false ∧
        obj9.grippedOffset = none ∧
        obj9.grippedRotation = none ∧
        obj9.velocity = ⟨0, -(0.5), 0⟩ ∧
        ∀ pose : GripperPose, updateGrippedObjectPosition pose obj9 = obj9) ∧
    ((setGripperOpenness heldWorld 10 true).objects = heldWorld.objects ∧
      (setGripperOpenness heldWorld 10 true).grippedIdx =
        heldWorld.grippedIdx) :=
  ⟨release_on_meaningful_open.1 heldWorld 80 true 0 heldCube rfl rfl
      (by
        show max 0 (min 100 (80:ℝ)) > (30:ℝ) + 1
        rw [min_eq_right (by norm_num), max_eq_right (by norm_num)]
        norm_num),
   release_on_meaningful_open.2 heldWorld 10 true
      (Or.inr (by
        show ¬(max 0 (min 100 (10:ℝ)) > (30:ℝ) + 1)
        rw [min_eq_right (by norm_num), max_eq_right (by norm_num)]
        norm_num))⟩

end Claim10

end RobotArm
